import Mathlib

/-!
# osgEarth `SpatialReference`: a shallow embedding and its verified properties

The file embeds `src/osgEarth/SpatialReference.cpp`, function by function.

* A `std::string` is a list of characters (`CxxString`); `c_str()` is the part
  before the first NUL.
* The OGR engine is a black box.  What it answers is the parameter `OGR σ τ D`:
  `σ` is the content of an engine spatial reference, `τ` the content of a
  coordinate transformation, `D` stands for `double`.
* A `void*` engine handle is a `Handle`: the identity of the engine object and
  the content the engine holds behind it.
* Instances live in a heap `World.objs`, addressed by natural numbers, so that
  `this == rhs` is equality of addresses.
* `World.trace` records every call of an `OSR...` or `OCT...` function of the
  engine and every entry to `SpatialReference::init`, in program order.
* Undefined behaviour (writing past a stack buffer, a null `ref_ptr`
  dereference) is the explicit outcome `Except.error`.
* Execution is sequential: `OGR_SCOPE_LOCK` is not embedded.  The text written
  to `osg::notify` is not embedded either; the `getName()` calls made to build
  it are.
-/

namespace osgEarth

/-! ## Strings -/

/-- A `std::string`. -/
abbrev CxxString := List Char

/-- The C library `::tolower` in the "C" locale. -/
def tolower (c : Char) : Char :=
  if 'A' ≤ c ∧ c ≤ 'Z' then Char.ofNat (c.toNat + 32) else c

/-- The idiom `std::transform( s.begin(), s.end(), s.begin(), ::tolower )`. -/
def lowercase (s : CxxString) : CxxString := s.map tolower

/-- The member `std::string::c_str()` as a C string: the bytes before the first NUL. -/
def c_str (s : CxxString) : CxxString := s.takeWhile (fun c => c != Char.ofNat 0)

/-- Search loop of `std::string::find`: first position at or after `i` where `pat` occurs. -/
def findFrom (pat : CxxString) : CxxString → Nat → Option Nat
  | [], i => if pat = [] then some i else none
  | c :: cs, i => if pat.isPrefixOf (c :: cs) then some i else findFrom pat cs (i + 1)

/-- The member `std::string::find( pat )`; `none` is `std::string::npos`. -/
def find (s pat : CxxString) : Option Nat := findFrom pat s 0

/-! ## The engine -/

/-- The answers of the OGR engine. -/
structure OGR (σ τ D : Type) where
  /-- content of the object made by `OSRNewSpatialReference( NULL )` -/
  newSRS : σ
  /-- `OSRImportFromProj4`: whether it returned `OGRERR_NONE`, and the content afterwards -/
  importFromProj4 : σ → CxxString → Bool × σ
  /-- `OSRImportFromWkt`: whether it returned `OGRERR_NONE`, and the content afterwards -/
  importFromWkt : σ → CxxString → Bool × σ
  /-- `OSRIsGeographic( h ) != 0` -/
  isGeographic : σ → Bool
  /-- `OSRGetSemiMajor` -/
  semiMajor : σ → D
  /-- `OSRGetSemiMinor` -/
  semiMinor : σ → D
  /-- `OSRGetAttrValue`; `none` is a null result -/
  attrValue : σ → CxxString → Nat → Option CxxString
  /-- `OSRExportToWkt`; `none` is an error code other than `OGRERR_NONE` -/
  exportToWkt : σ → Option CxxString
  /-- `OSRIsSame( a, b ) == TRUE` -/
  isSame : σ → σ → Bool
  /-- `OCTNewCoordinateTransformation`; `none` is a null result -/
  newTransform : σ → σ → Option τ
  /-- `OCTTransform` on one point: whether it succeeded, and the point afterwards -/
  octTransform : τ → D × D × D → Bool × (D × D × D)
  /-- the `double` comparison `==` -/
  deq : D → D → Bool
  /-- the `double` literal `0.0` -/
  zero : D

/-- A `void*` handle to an engine spatial reference. -/
structure Handle (σ : Type) where
  id : Nat
  obj : σ
  deriving DecidableEq

/-- One entry of the trace: a call to the engine, or an entry to `SpatialReference::init`. -/
inductive Call where
  | OSRNewSpatialReference (h : Nat)
  | OSRImportFromProj4 (h : Nat) (text : CxxString)
  | OSRImportFromWkt (h : Nat) (text : CxxString)
  | OSRDestroySpatialReference (h : Nat)
  | OSRIsGeographic (h : Nat)
  | OSRGetSemiMajor (h : Nat)
  | OSRGetSemiMinor (h : Nat)
  | OSRGetAttrValue (h : Nat) (name : CxxString) (child : Nat)
  | OSRExportToWkt (h : Nat)
  | OSRIsSame (a b : Nat)
  | OCTNewCoordinateTransformation (a b : Nat) (result : Option Nat)
  | OCTTransform (t : Nat)
  | OCTDestroyCoordinateTransformation (t : Nat)
  | init (this : Nat)
  deriving DecidableEq, Repr

/-- Undefined behaviour the code can run into. -/
inductive Fault where
  | bufferOverrun
  | nullDereference
  deriving DecidableEq, Repr

/-- An `osg::EllipsoidModel( radiusEquator, radiusPolar )`. -/
structure EllipsoidModel (D : Type) where
  radiusEquator : D
  radiusPolar : D
  deriving DecidableEq

/-- The data members of a `SpatialReference`. -/
structure SpatialReference (σ D : Type) where
  _handle : Handle σ
  _init_type : CxxString
  _init_str : CxxString
  _init_str_lc : CxxString
  _owns_handle : Bool
  _initialized : Bool
  _is_geographic : Bool
  _is_mercator : Bool
  _name : CxxString
  _wkt : CxxString
  _ellipsoid : Option (EllipsoidModel D)

/-- The program state: the heap of instances, the live engine objects, the trace. -/
structure World (σ D : Type) where
  objs : Nat → SpatialReference σ D
  nextObj : Nat
  liveSRS : List Nat
  nextSRS : Nat
  liveXforms : List Nat
  nextXform : Nat
  trace : List Call

variable {σ τ D : Type}

/-- Append one entry to the trace. -/
def World.log (w : World σ D) (c : Call) : World σ D :=
  { w with trace := w.trace ++ [c] }

/-! ## Engine calls -/

/-- The call `OSRNewSpatialReference( NULL )`. -/
def OSRNewSpatialReference (E : OGR σ τ D) (w : World σ D) : Handle σ × World σ D :=
  ({ id := w.nextSRS, obj := E.newSRS },
   { w with liveSRS := w.nextSRS :: w.liveSRS, nextSRS := w.nextSRS + 1,
            trace := w.trace ++ [Call.OSRNewSpatialReference w.nextSRS] })

/-- The call `OSRImportFromProj4( handle, text )`; the first component is `== OGRERR_NONE`. -/
def OSRImportFromProj4 (E : OGR σ τ D) (w : World σ D) (h : Handle σ) (text : CxxString) :
    Bool × Handle σ × World σ D :=
  ((E.importFromProj4 h.obj text).1, { h with obj := (E.importFromProj4 h.obj text).2 },
   w.log (Call.OSRImportFromProj4 h.id text))

/-- The call `OSRImportFromWkt( handle, &buf_ptr )`; the first component is `== OGRERR_NONE`. -/
def OSRImportFromWkt (E : OGR σ τ D) (w : World σ D) (h : Handle σ) (text : CxxString) :
    Bool × Handle σ × World σ D :=
  ((E.importFromWkt h.obj text).1, { h with obj := (E.importFromWkt h.obj text).2 },
   w.log (Call.OSRImportFromWkt h.id text))

/-- The call `OSRDestroySpatialReference( handle )`. -/
def OSRDestroySpatialReference (w : World σ D) (h : Handle σ) : World σ D :=
  { w with liveSRS := w.liveSRS.erase h.id,
           trace := w.trace ++ [Call.OSRDestroySpatialReference h.id] }

/-! ## Construction -/

/-- The constructor `SpatialReference( handle, init_type, init_str )` run by `new` at the next
free address.  `_is_geographic` and `_is_mercator` have no initializer: they keep what the
memory held. -/
def SpatialReference.new (w : World σ D) (handle : Handle σ) (init_type init_str : CxxString) :
    Nat × World σ D :=
  (w.nextObj,
   { w with
     nextObj := w.nextObj + 1
     objs := Function.update w.objs w.nextObj
       { _handle := handle
         _init_type := init_type
         _init_str := init_str
         _init_str_lc := lowercase init_str
         _owns_handle := true
         _initialized := false
         _is_geographic := (w.objs w.nextObj)._is_geographic
         _is_mercator := (w.objs w.nextObj)._is_mercator
         _name := []
         _wkt := []
         _ellipsoid := none } })

/-- The static `SpatialReference::createFromPROJ4( init, init_alias )`; `none` is `NULL`. -/
def createFromPROJ4 (E : OGR σ τ D) (w : World σ D) (init init_alias : CxxString) :
    Option Nat × World σ D :=
  let r := OSRNewSpatialReference E w
  let i := OSRImportFromProj4 E r.2 r.1 (c_str init)
  if i.1 then
    let n := SpatialReference.new i.2.2 i.2.1 "PROJ4".toList init_alias
    (some n.1, n.2)
  else
    (none, OSRDestroySpatialReference i.2.2 i.2.1)

/-- The size of `char buf[4096]` in `createFromWKT`. -/
def bufSize : Nat := 4096

/-- The call `strcpy( buf, src )` into a buffer of `cap` bytes: it writes the bytes of `src`
and the terminator.  The result is the C string then in the buffer; writing past the end of
the buffer is undefined behaviour. -/
def strcpy (cap : Nat) (src : CxxString) : Except Fault CxxString :=
  if src.length + 1 ≤ cap then Except.ok src else Except.error Fault.bufferOverrun

/-- The static `SpatialReference::createFromWKT( init, init_alias )`; `none` is `NULL`. -/
def createFromWKT (E : OGR σ τ D) (w : World σ D) (init init_alias : CxxString) :
    Except Fault (Option Nat × World σ D) :=
  let r := OSRNewSpatialReference E w
  match strcpy bufSize (c_str init) with
  | Except.error f => Except.error f
  | Except.ok buf =>
    let i := OSRImportFromWkt E r.2 r.1 buf
    if i.1 then
      let n := SpatialReference.new i.2.2 i.2.1 "WKT".toList init_alias
      Except.ok (some n.1, n.2)
    else
      Except.ok (none, OSRDestroySpatialReference i.2.2 i.2.1)

/-- The PROJ text of the Web Mercator shortcut. -/
def mercatorProj4 : CxxString :=
  "+proj=merc +lon_0=0 +k=1 +x_0=0 +y_0=0 +ellps=WGS84 +datum=WGS84 +units=m +no_defs".toList

/-- The PROJ text of the WGS84 shortcut. -/
def wgs84Proj4 : CxxString :=
  "+proj=longlat +ellps=WGS84 +datum=WGS84 +no_defs".toList

/-- The static `SpatialReference::create( init )`; `none` is `NULL`. -/
def create (E : OGR σ τ D) (w : World σ D) (init : CxxString) :
    Except Fault (Option Nat × World σ D) :=
  let low := lowercase init
  if low = "epsg:900913".toList ∨ low = "epsg:3785".toList ∨ low = "epsg:41001".toList ∨
      low = "epsg:54004".toList ∨ low = "epsg:9804".toList ∨ low = "epsg:9805".toList then
    Except.ok (createFromPROJ4 E w mercatorProj4 init)
  else if low = "epsg:4326".toList ∨ low = "wgs84".toList then
    Except.ok (createFromPROJ4 E w wgs84Proj4 init)
  else if find low "+".toList = some 0 then
    Except.ok (createFromPROJ4 E w low init)
  else if find low "epsg:".toList = some 0 ∨ find low "osgeo:".toList = some 0 then
    Except.ok (createFromPROJ4 E w ("+init=".toList ++ low) init)
  else if find low "projcs".toList = some 0 ∨ find low "geogcs".toList = some 0 then
    createFromWKT E w init init
  else
    Except.ok (none, w)

/-! ## Lazy derivation and the accessors -/

/-- The call `OSRIsGeographic( handle ) != 0`. -/
def OSRIsGeographic (E : OGR σ τ D) (w : World σ D) (h : Handle σ) : Bool × World σ D :=
  (E.isGeographic h.obj, w.log (Call.OSRIsGeographic h.id))

/-- The call `OSRGetSemiMajor( handle, &err )`. -/
def OSRGetSemiMajor (E : OGR σ τ D) (w : World σ D) (h : Handle σ) : D × World σ D :=
  (E.semiMajor h.obj, w.log (Call.OSRGetSemiMajor h.id))

/-- The call `OSRGetSemiMinor( handle, &err )`. -/
def OSRGetSemiMinor (E : OGR σ τ D) (w : World σ D) (h : Handle σ) : D × World σ D :=
  (E.semiMinor h.obj, w.log (Call.OSRGetSemiMinor h.id))

/-- The call `OSRGetAttrValue( handle, name, child_num )`; `none` is a null result. -/
def OSRGetAttrValue (E : OGR σ τ D) (w : World σ D) (h : Handle σ) (name : CxxString)
    (child_num : Nat) : Option CxxString × World σ D :=
  (E.attrValue h.obj name child_num, w.log (Call.OSRGetAttrValue h.id name child_num))

/-- The call `OSRExportToWkt( handle, &wktbuf )`; `none` is an error code other than
`OGRERR_NONE`. -/
def OSRExportToWkt (E : OGR σ τ D) (w : World σ D) (h : Handle σ) :
    Option CxxString × World σ D :=
  (E.exportToWkt h.obj, w.log (Call.OSRExportToWkt h.id))

/-- The static helper `getOGRAttrValue( _handle, name, child_num, lowercase )`. -/
def getOGRAttrValue (E : OGR σ τ D) (w : World σ D) (h : Handle σ) (name : CxxString)
    (child_num : Nat) (lower : Bool) : CxxString × World σ D :=
  let v := OSRGetAttrValue E w h (c_str name) child_num
  match v.1 with
  | some t => (if lower then lowercase t else t, v.2)
  | none => ([], v.2)

/-- The member `SpatialReference::init()`.  The engine calls happen in the order of the source;
they do not read the instance, so its members are written in one update at the end. -/
def init (E : OGR σ τ D) (w : World σ D) (this : Nat) : World σ D :=
  let h := (w.objs this)._handle
  let g := OSRIsGeographic E (w.log (Call.init this)) h
  let a := OSRGetSemiMajor E g.2 h
  let b := OSRGetSemiMinor E a.2 h
  let n := if g.1 then getOGRAttrValue E b.2 h "GEOGCS".toList 0 false
           else getOGRAttrValue E b.2 h "PROJCS".toList 0 false
  let proj := getOGRAttrValue E n.2 h "PROJECTION".toList 0 true
  let x := OSRExportToWkt E proj.2 h
  { x.2 with
    objs := Function.update x.2.objs this
      { (w.objs this) with
        _is_geographic := g.1
        _ellipsoid := some { radiusEquator := a.1, radiusPolar := b.1 }
        _name := n.1
        _is_mercator := !proj.1.isEmpty && find proj.1 "mercator".toList == some 0
        _wkt := match x.1 with
          | some t => t
          | none => (w.objs this)._wkt
        _initialized := true } }

/-- The guard `if ( !_initialized ) const_cast<SpatialReference*>(this)->init();`. -/
def ensureInit (E : OGR σ τ D) (w : World σ D) (this : Nat) : World σ D :=
  if (w.objs this)._initialized then w else init E w this

/-- The member `SpatialReference::isGeographic()`. -/
def isGeographic (E : OGR σ τ D) (w : World σ D) (this : Nat) : Bool × World σ D :=
  (((ensureInit E w this).objs this)._is_geographic, ensureInit E w this)

/-- The member `SpatialReference::isProjected()`. -/
def isProjected (E : OGR σ τ D) (w : World σ D) (this : Nat) : Bool × World σ D :=
  (!((ensureInit E w this).objs this)._is_geographic, ensureInit E w this)

/-- The member `SpatialReference::getName()`. -/
def getName (E : OGR σ τ D) (w : World σ D) (this : Nat) : CxxString × World σ D :=
  (((ensureInit E w this).objs this)._name, ensureInit E w this)

/-- The member `SpatialReference::getEllipsoid()`; `none` is a null pointer. -/
def getEllipsoid (E : OGR σ τ D) (w : World σ D) (this : Nat) :
    Option (EllipsoidModel D) × World σ D :=
  (((ensureInit E w this).objs this)._ellipsoid, ensureInit E w this)

/-- The member `SpatialReference::getWKT()`. -/
def getWKT (E : OGR σ τ D) (w : World σ D) (this : Nat) : CxxString × World σ D :=
  (((ensureInit E w this).objs this)._wkt, ensureInit E w this)

/-- The member `SpatialReference::getInitString()`. -/
def getInitString (w : World σ D) (this : Nat) : CxxString := (w.objs this)._init_str

/-- The member `SpatialReference::getInitType()`. -/
def getInitType (w : World σ D) (this : Nat) : CxxString := (w.objs this)._init_type

/-- The member `SpatialReference::isMercator()`. -/
def isMercator (E : OGR σ τ D) (w : World σ D) (this : Nat) : Bool × World σ D :=
  (((ensureInit E w this).objs this)._is_mercator, ensureInit E w this)

/-! ## Equivalence -/

/-- The call `TRUE == ::OSRIsSame( a, b )`. -/
def OSRIsSame (E : OGR σ τ D) (w : World σ D) (a b : Handle σ) : Bool × World σ D :=
  (E.isSame a.obj b.obj, w.log (Call.OSRIsSame a.id b.id))

/-- The comparison
`this->getEllipsoid()->getRadiusEquator() == rhs->getEllipsoid()->getRadiusEquator()`. -/
def sameRadiusEquator (E : OGR σ τ D) (w : World σ D) (this rhs : Nat) :
    Except Fault (Bool × World σ D) :=
  let a := getEllipsoid E w this
  let b := getEllipsoid E a.2 rhs
  match a.1, b.1 with
  | some x, some y => Except.ok (E.deq x.radiusEquator y.radiusEquator, b.2)
  | _, _ => Except.error Fault.nullDereference

/-- The comparison
`this->getEllipsoid()->getRadiusPolar() == rhs->getEllipsoid()->getRadiusPolar()`. -/
def sameRadiusPolar (E : OGR σ τ D) (w : World σ D) (this rhs : Nat) :
    Except Fault (Bool × World σ D) :=
  let a := getEllipsoid E w this
  let b := getEllipsoid E a.2 rhs
  match a.1, b.1 with
  | some x, some y => Except.ok (E.deq x.radiusPolar y.radiusPolar, b.2)
  | _, _ => Except.error Fault.nullDereference

/-- The last resort of `isEquivalentTo`: `return TRUE == ::OSRIsSame( _handle, rhs->_handle )`. -/
def lastResort (E : OGR σ τ D) (w : World σ D) (this rhs : Nat) : Bool × World σ D :=
  OSRIsSame E w (w.objs this)._handle (w.objs rhs)._handle

/-- The condition of the fourth check of `isEquivalentTo`, with the short circuit of `&&`. -/
def geographicSameEllipsoid (E : OGR σ τ D) (w : World σ D) (this rhs : Nat) :
    Except Fault (Bool × World σ D) :=
  let g := isGeographic E w this
  if g.1 then
    let k := isGeographic E g.2 rhs
    if k.1 then
      match sameRadiusEquator E k.2 this rhs with
      | Except.error f => Except.error f
      | Except.ok q =>
        if q.1 then sameRadiusPolar E q.2 this rhs else Except.ok (false, q.2)
    else Except.ok (false, k.2)
  else Except.ok (false, g.2)

/-- The member `SpatialReference::isEquivalentTo( rhs )`; `rhs = none` is a null pointer. -/
def isEquivalentTo (E : OGR σ τ D) (w : World σ D) (this : Nat) (rhs : Option Nat) :
    Except Fault (Bool × World σ D) :=
  let w1 := ensureInit E w this
  match rhs with
  | none => Except.ok (false, w1)
  | some r =>
    if this = r then Except.ok (true, w1)
    else if (w1.objs this)._init_str_lc = (w1.objs r)._init_str_lc then Except.ok (true, w1)
    else
      let a := getWKT E w1 this
      let b := getWKT E a.2 r
      if a.1 = b.1 then Except.ok (true, b.2)
      else
        match geographicSameEllipsoid E b.2 this r with
        | Except.error f => Except.error f
        | Except.ok c =>
          if c.1 then Except.ok (true, c.2) else Except.ok (lastResort E c.2 this r)

/-! ## Coordinate transformation -/

/-- A `void*` handle to an engine coordinate transformation. -/
structure XformHandle (τ : Type) where
  id : Nat
  obj : τ

/-- The call `OCTNewCoordinateTransformation( a, b )`; `none` is a null result. -/
def OCTNewCoordinateTransformation (E : OGR σ τ D) (w : World σ D) (a b : Handle σ) :
    Option (XformHandle τ) × World σ D :=
  match E.newTransform a.obj b.obj with
  | some t =>
    (some { id := w.nextXform, obj := t },
     { w with liveXforms := w.nextXform :: w.liveXforms, nextXform := w.nextXform + 1,
              trace := w.trace ++ [Call.OCTNewCoordinateTransformation a.id b.id
                (some w.nextXform)] })
  | none => (none, w.log (Call.OCTNewCoordinateTransformation a.id b.id none))

/-- The call `OCTTransform( xform_handle, 1, &x, &y, &z )`: whether it succeeded, and the
three coordinates afterwards. -/
def OCTTransform (E : OGR σ τ D) (w : World σ D) (t : XformHandle τ) (p : D × D × D) :
    Bool × (D × D × D) × World σ D :=
  ((E.octTransform t.obj p).1, (E.octTransform t.obj p).2, w.log (Call.OCTTransform t.id))

/-- The call `OCTDestroyCoordinateTransformation( xform_handle )`. -/
def OCTDestroyCoordinateTransformation (w : World σ D) (t : XformHandle τ) : World σ D :=
  { w with liveXforms := w.liveXforms.erase t.id,
           trace := w.trace ++ [Call.OCTDestroyCoordinateTransformation t.id] }

/-- The member `SpatialReference::transform( x, y, out_srs, out_x, out_y )`.  The result is the
returned flag and the two output parameters, which hold `out_x`, `out_y` on entry.  The two
`getName()` calls are those of the warning that is written on the failure paths. -/
def transform (E : OGR σ τ D) (w : World σ D) (this : Nat) (x y : D) (out_srs : Nat)
    (out_x out_y : D) : (Bool × D × D) × World σ D :=
  let c := OCTNewCoordinateTransformation E w (w.objs this)._handle (w.objs out_srs)._handle
  match c.1 with
  | none =>
    let n1 := getName E c.2 this
    let n2 := getName E n1.2 out_srs
    ((false, out_x, out_y), n2.2)
  | some xform_handle =>
    let t := OCTTransform E c.2 xform_handle (x, y, E.zero)
    if t.1 then
      ((true, t.2.1.1, t.2.1.2.1), OCTDestroyCoordinateTransformation t.2.2 xform_handle)
    else
      let n1 := getName E t.2.2 this
      let n2 := getName E n1.2 out_srs
      ((false, out_x, out_y), OCTDestroyCoordinateTransformation n2.2 xform_handle)

/-! ## Observations on the trace -/

/-- The texts handed to the PROJ parser, in order. -/
def proj4Texts : List Call → List CxxString
  | [] => []
  | Call.OSRImportFromProj4 _ t :: cs => t :: proj4Texts cs
  | _ :: cs => proj4Texts cs

/-- The coordinate transformations constructed, in order. -/
def xformsCreated : List Call → List Nat
  | [] => []
  | Call.OCTNewCoordinateTransformation _ _ (some t) :: cs => t :: xformsCreated cs
  | _ :: cs => xformsCreated cs

/-- The coordinate transformations destroyed, in order. -/
def xformsDestroyed : List Call → List Nat
  | [] => []
  | Call.OCTDestroyCoordinateTransformation t :: cs => t :: xformsDestroyed cs
  | _ :: cs => xformsDestroyed cs

/-- How often `SpatialReference::init` was entered on the instance at `this`. -/
def initRuns (this : Nat) (tr : List Call) : Nat := tr.count (Call.init this)

/-- How often `OSRIsSame` was consulted. -/
def isSameCalls : List Call → Nat
  | [] => 0
  | Call.OSRIsSame _ _ :: cs => isSameCalls cs + 1
  | _ :: cs => isSameCalls cs

/-! ## A small engine to evaluate the code on -/

/-- An engine that holds the text it parsed.  It knows three PROJ texts, case-sensitively, and
one WKT text. -/
def demoOGR : OGR CxxString Unit Int where
  newSRS := []
  importFromProj4 := fun s t =>
    if t = mercatorProj4 ∨ t = wgs84Proj4 ∨ t = "+proj=longlat +datum=WGS84".toList then (true, t)
    else (false, s)
  importFromWkt := fun s t => if t = "GEOGCS[WGS 84]".toList then (true, t) else (false, s)
  isGeographic := fun s => decide (s ≠ mercatorProj4)
  semiMajor := fun _ => 6378137
  semiMinor := fun s => if s = mercatorProj4 then 6378137 else 6356752
  attrValue := fun s name _ =>
    if name = "PROJECTION".toList then
      if s = mercatorProj4 then some "Mercator_1SP".toList else none
    else if name = "GEOGCS".toList then some "WGS 84".toList
    else some "unnamed".toList
  exportToWkt := fun s => if s = mercatorProj4 then some "PROJCS[unnamed]".toList
    else some "GEOGCS[WGS 84]".toList
  isSame := fun a b => decide (a = b)
  newTransform := fun a b => if a = [] ∨ b = [] then none else some ()
  octTransform := fun _ p => (true, p)
  deq := fun a b => decide (a = b)
  zero := 0

/-- An instance as raw memory holds it before any constructor ran. -/
def rawObject : SpatialReference CxxString Int where
  _handle := { id := 0, obj := [] }
  _init_type := []
  _init_str := []
  _init_str_lc := []
  _owns_handle := false
  _initialized := false
  _is_geographic := false
  _is_mercator := false
  _name := []
  _wkt := []
  _ellipsoid := none

/-- The state at program start: nothing allocated, nothing called. -/
def startWorld : World CxxString Int where
  objs := fun _ => rawObject
  nextObj := 1
  liveSRS := []
  nextSRS := 1
  liveXforms := []
  nextXform := 1
  trace := []

/-- The state after `create( "epsg:4326" )` and then `create( "EPSG:900913" )` on the small
engine, which are these two calls of `createFromPROJ4`: the two instances are at the
addresses 1 and 2. -/
def twoInstances : World CxxString Int :=
  (createFromPROJ4 demoOGR
    (createFromPROJ4 demoOGR startWorld wgs84Proj4 "epsg:4326".toList).2
    mercatorProj4 "EPSG:900913".toList).2

/-- The state after `create( "epsg:900913" )` on the small engine: the instance is at the
address 1. -/
def mercatorFirst : World CxxString Int :=
  (createFromPROJ4 demoOGR startWorld mercatorProj4 "epsg:900913".toList).2

/-- The state after `create( "EPSG:3785" )` in `mercatorFirst`: the second instance is at the
address 2. -/
def mercatorPair : World CxxString Int :=
  (createFromPROJ4 demoOGR mercatorFirst mercatorProj4 "EPSG:3785".toList).2

/-- The Web Mercator shortcut codes. -/
def webMercatorCodes : List CxxString :=
  ["epsg:900913".toList, "epsg:3785".toList, "epsg:41001".toList, "epsg:54004".toList,
   "epsg:9804".toList, "epsg:9805".toList]

/-- The WGS84 shortcut codes. -/
def wgs84Codes : List CxxString := ["epsg:4326".toList, "wgs84".toList]

/-! ## What the derivation yields from a handle -/

/-- The name `init` reads from the engine: the `GEOGCS` node if geographic, else `PROJCS`; empty
when the engine has no such node. -/
def derivedName (E : OGR σ τ D) (s : σ) : CxxString :=
  if E.isGeographic s then (E.attrValue s "GEOGCS".toList 0).getD []
  else (E.attrValue s "PROJCS".toList 0).getD []

/-- The Mercator classification `init` computes: the lower-cased `PROJECTION` node starts with
`mercator`. -/
def derivedMercator (E : OGR σ τ D) (s : σ) : Bool :=
  match E.attrValue s "PROJECTION".toList 0 with
  | some t => !(lowercase t).isEmpty && find (lowercase t) "mercator".toList == some 0
  | none => false

/-- The canonical WKT `init` stores: the engine's export, empty when the export fails. -/
def derivedWKT (E : OGR σ τ D) (s : σ) : CxxString := (E.exportToWkt s).getD []

/-- The derived members of `o` hold what the engine answers for the handle of `o`. -/
def Derived (E : OGR σ τ D) (o : SpatialReference σ D) : Prop :=
  o._is_geographic = E.isGeographic o._handle.obj ∧
  o._ellipsoid = some { radiusEquator := E.semiMajor o._handle.obj,
                        radiusPolar := E.semiMinor o._handle.obj } ∧
  o._name = derivedName E o._handle.obj ∧
  o._is_mercator = derivedMercator E o._handle.obj ∧
  o._wkt = derivedWKT E o._handle.obj

/-- The state of an instance that the constructor and `init` leave behind: the lower-cased
copy of the initializer is in place, the WKT is still empty before `init`, and after `init`
the derived members hold what the engine answers for the handle. -/
def WF (E : OGR σ τ D) (o : SpatialReference σ D) : Prop :=
  o._init_str_lc = lowercase o._init_str ∧
  (o._initialized = false → o._wkt = []) ∧
  (o._initialized = true → Derived E o)

/-- The five checks of the equivalence test in the words of the specification, on the values
the derivation yields from the two handles; `same` says that the two are one instance. -/
def fiveChecks (E : OGR σ τ D) (same : Bool) (x y : SpatialReference σ D) : Bool :=
  same ||
  decide (lowercase x._init_str = lowercase y._init_str) ||
  decide (derivedWKT E x._handle.obj = derivedWKT E y._handle.obj) ||
  (E.isGeographic x._handle.obj && E.isGeographic y._handle.obj &&
    E.deq (E.semiMajor x._handle.obj) (E.semiMajor y._handle.obj) &&
    E.deq (E.semiMinor x._handle.obj) (E.semiMinor y._handle.obj)) ||
  E.isSame x._handle.obj y._handle.obj

/-- The first four of the five checks. -/
def firstFourChecks (E : OGR σ τ D) (same : Bool) (x y : SpatialReference σ D) : Bool :=
  same ||
  decide (lowercase x._init_str = lowercase y._init_str) ||
  decide (derivedWKT E x._handle.obj = derivedWKT E y._handle.obj) ||
  (E.isGeographic x._handle.obj && E.isGeographic y._handle.obj &&
    E.deq (E.semiMajor x._handle.obj) (E.semiMajor y._handle.obj) &&
    E.deq (E.semiMinor x._handle.obj) (E.semiMinor y._handle.obj))

/-! ## Sequences of accessor calls -/

/-- A call to one of the accessors that trigger the lazy derivation. -/
inductive Access where
  | isGeographic
  | isProjected
  | getName
  | getEllipsoid
  | getWKT
  | isMercator
  | isEquivalentTo (rhs : Option Nat)
  deriving DecidableEq

/-- What an accessor returns. -/
inductive Value (D : Type) where
  | flag (b : Bool)
  | text (s : CxxString)
  | ellipsoid (e : Option (EllipsoidModel D))

/-- One accessor call on the instance at `this`. -/
def access (E : OGR σ τ D) (w : World σ D) (this : Nat) :
    Access → Except Fault (Value D × World σ D)
  | Access.isGeographic =>
    Except.ok (Value.flag (isGeographic E w this).1, (isGeographic E w this).2)
  | Access.isProjected =>
    Except.ok (Value.flag (isProjected E w this).1, (isProjected E w this).2)
  | Access.getName => Except.ok (Value.text (getName E w this).1, (getName E w this).2)
  | Access.getEllipsoid =>
    Except.ok (Value.ellipsoid (getEllipsoid E w this).1, (getEllipsoid E w this).2)
  | Access.getWKT => Except.ok (Value.text (getWKT E w this).1, (getWKT E w this).2)
  | Access.isMercator =>
    Except.ok (Value.flag (isMercator E w this).1, (isMercator E w this).2)
  | Access.isEquivalentTo rhs =>
    match isEquivalentTo E w this rhs with
    | Except.ok r => Except.ok (Value.flag r.1, r.2)
    | Except.error f => Except.error f

/-- A sequence of accessor calls on the instance at `this`, one after the other: the values
returned, in order, and the state at the end. -/
def accessAll (E : OGR σ τ D) (w : World σ D) (this : Nat) :
    List Access → Except Fault (List (Value D) × World σ D)
  | [] => Except.ok ([], w)
  | op :: ops =>
    match access E w this op with
    | Except.error f => Except.error f
    | Except.ok r =>
      match accessAll E r.2 this ops with
      | Except.error f => Except.error f
      | Except.ok rs => Except.ok (r.1 :: rs.1, rs.2)

/-- The value an accessor is to return, read off the handle and the initializer. -/
def expected (E : OGR σ τ D) (w : World σ D) (this : Nat) : Access → Value D
  | Access.isGeographic => Value.flag (E.isGeographic (w.objs this)._handle.obj)
  | Access.isProjected => Value.flag (!E.isGeographic (w.objs this)._handle.obj)
  | Access.getName => Value.text (derivedName E (w.objs this)._handle.obj)
  | Access.getEllipsoid =>
    Value.ellipsoid (some { radiusEquator := E.semiMajor (w.objs this)._handle.obj,
                            radiusPolar := E.semiMinor (w.objs this)._handle.obj })
  | Access.getWKT => Value.text (derivedWKT E (w.objs this)._handle.obj)
  | Access.isMercator => Value.flag (derivedMercator E (w.objs this)._handle.obj)
  | Access.isEquivalentTo none => Value.flag false
  | Access.isEquivalentTo (some r) =>
    Value.flag (fiveChecks E (decide (this = r)) (w.objs this) (w.objs r))

/-- What one or more accessor calls on the instance at `this` do to the state, from `w` to
`w2`: every instance stays well-formed and keeps its handle, tag and initializer; the instance
at `this` is initialized afterwards, `init` was entered on it once if it was not initialized
before and not at all if it was, and in that case the instance is unchanged. -/
def Memoized (E : OGR σ τ D) (this : Nat) (w w2 : World σ D) : Prop :=
  (∀ q, WF E (w2.objs q)) ∧
  (∀ q, (w2.objs q)._handle = (w.objs q)._handle ∧
        (w2.objs q)._init_type = (w.objs q)._init_type ∧
        (w2.objs q)._init_str = (w.objs q)._init_str) ∧
  initRuns this w2.trace
    = initRuns this w.trace + (if (w.objs this)._initialized then 0 else 1) ∧
  (w2.objs this)._initialized = true ∧
  ((w.objs this)._initialized = true → w2.objs this = w.objs this)

/-! ## Strings: lemmas -/

theorem findFrom_ge (pat : CxxString) (s : CxxString) (i j : Nat)
    (h : findFrom pat s i = some j) : i ≤ j := by
  induction s generalizing i with
  | nil =>
    unfold findFrom at h
    split at h
    · simp at h; omega
    · simp at h
  | cons c cs ih =>
    unfold findFrom at h
    split at h
    · simp at h; omega
    · have := ih (i + 1) h
      omega

/-- The test `s.find( pat ) == 0` holds exactly when `s` starts with `pat`. -/
theorem find_eq_zero_iff (s pat : CxxString) : find s pat = some 0 ↔ pat <+: s := by
  unfold find
  cases s with
  | nil =>
    unfold findFrom
    by_cases hp : pat = []
    · simp [hp]
    · simp [hp]
  | cons c cs =>
    unfold findFrom
    by_cases hp : pat.isPrefixOf (c :: cs) = true
    · simp only [hp, if_true, true_iff]
      exact List.isPrefixOf_iff_prefix.mp hp
    · simp only [hp]
      constructor
      · intro h
        have := findFrom_ge pat cs 1 0 (by simpa using h)
        omega
      · intro h
        exact absurd (List.isPrefixOf_iff_prefix.mpr h) hp

theorem proj4Texts_append (a b : List Call) :
    proj4Texts (a ++ b) = proj4Texts a ++ proj4Texts b := by
  induction a with
  | nil => rfl
  | cons c cs ih => cases c <;> simp [proj4Texts, ih]

/-! ## The factories: lemmas -/

theorem createFromPROJ4_proj4Texts (E : OGR σ τ D) (w : World σ D) (init al : CxxString) :
    proj4Texts (createFromPROJ4 E w init al).2.trace
      = proj4Texts w.trace ++ [c_str init] := by
  by_cases hi : (E.importFromProj4 E.newSRS (c_str init)).1 = true <;>
    simp [createFromPROJ4, hi, OSRNewSpatialReference, OSRImportFromProj4,
      OSRDestroySpatialReference, SpatialReference.new, World.log, proj4Texts_append, proj4Texts]

theorem createFromPROJ4_alias (E : OGR σ τ D) (w : World σ D) (init al : CxxString) (p : Nat)
    (h : (createFromPROJ4 E w init al).1 = some p) :
    ((createFromPROJ4 E w init al).2.objs p)._init_str = al := by
  by_cases hi : (E.importFromProj4 E.newSRS (c_str init)).1 = true
  · simp [createFromPROJ4, hi, OSRNewSpatialReference, OSRImportFromProj4,
      SpatialReference.new, World.log] at h ⊢
    subst h
    simp
  · simp [createFromPROJ4, hi, OSRNewSpatialReference, OSRImportFromProj4] at h

theorem c_str_mercatorProj4 : c_str mercatorProj4 = mercatorProj4 := by decide

theorem c_str_wgs84Proj4 : c_str wgs84Proj4 = wgs84Proj4 := by decide

theorem lowercase_plus (rest : CxxString) :
    lowercase ('+' :: rest) = '+' :: lowercase rest := by
  simp [lowercase, tolower]

theorem plus_not_shortcut (rest : CxxString) :
    ¬ ('+' :: rest ∈ webMercatorCodes) ∧ ¬ ('+' :: rest ∈ wgs84Codes) := by
  constructor <;>
  · intro h
    simp only [webMercatorCodes, wgs84Codes, List.mem_cons, List.mem_singleton,
      List.not_mem_nil, or_false] at h
    rcases h with h | h | h | h | h | h <;>
    · have h2 := congrArg List.head? h
      simp only [List.head?_cons] at h2
      revert h2
      decide

theorem c_str_eq_self (s : CxxString) (h : ∀ c ∈ s, c ≠ Char.ofNat 0) : c_str s = s := by
  unfold c_str
  rw [List.takeWhile_eq_self_iff]
  intro c hc
  simpa using h c hc

theorem c_str_length_le (s : CxxString) : (c_str s).length ≤ s.length := by
  unfold c_str
  exact (List.takeWhile_sublist _).length_le

theorem createFromWKT_eq (E : OGR σ τ D) (w : World σ D) (init al : CxxString)
    (hlen : (c_str init).length < bufSize) :
    createFromWKT E w init al =
      Except.ok (
        if (OSRImportFromWkt E (OSRNewSpatialReference E w).2 (OSRNewSpatialReference E w).1
            (c_str init)).1 then
          (some (SpatialReference.new
            (OSRImportFromWkt E (OSRNewSpatialReference E w).2 (OSRNewSpatialReference E w).1
              (c_str init)).2.2
            (OSRImportFromWkt E (OSRNewSpatialReference E w).2 (OSRNewSpatialReference E w).1
              (c_str init)).2.1 "WKT".toList al).1,
           (SpatialReference.new
            (OSRImportFromWkt E (OSRNewSpatialReference E w).2 (OSRNewSpatialReference E w).1
              (c_str init)).2.2
            (OSRImportFromWkt E (OSRNewSpatialReference E w).2 (OSRNewSpatialReference E w).1
              (c_str init)).2.1 "WKT".toList al).2)
        else
          (none, OSRDestroySpatialReference
            (OSRImportFromWkt E (OSRNewSpatialReference E w).2 (OSRNewSpatialReference E w).1
              (c_str init)).2.2
            (OSRImportFromWkt E (OSRNewSpatialReference E w).2 (OSRNewSpatialReference E w).1
              (c_str init)).2.1)) := by
  have h : (c_str init).length + 1 ≤ bufSize := hlen
  simp only [createFromWKT, strcpy, if_pos h]
  split <;> rfl

theorem createFromWKT_overrun (E : OGR σ τ D) (w : World σ D) (init al : CxxString)
    (hlen : bufSize ≤ (c_str init).length) :
    createFromWKT E w init al = Except.error Fault.bufferOverrun := by
  have h : ¬ ((c_str init).length + 1 ≤ bufSize) := by omega
  simp [createFromWKT, strcpy, h]

/-- Within the buffer, the two factories fail cleanly.  `createFromPROJ4` on every text, and
`createFromWKT` on every text whose C string is shorter than the 4096 bytes of `buf`: when the
engine rejects the text the factory returns no instance, the live engine handles and the heap
are as before; when the engine accepts it the factory returns a new instance that holds the
handle just created, which is live, owns it, is tagged, has the alias as `_init_str` and is
not initialized. -/
theorem factories_within_buffer (E : OGR σ τ D) (w : World σ D) (text al : CxxString) :
    ((E.importFromProj4 E.newSRS (c_str text)).1 = false →
      (createFromPROJ4 E w text al).1 = none ∧
      (createFromPROJ4 E w text al).2.liveSRS = w.liveSRS ∧
      (createFromPROJ4 E w text al).2.objs = w.objs) ∧
    ((E.importFromProj4 E.newSRS (c_str text)).1 = true →
      (createFromPROJ4 E w text al).1 = some w.nextObj ∧
      (createFromPROJ4 E w text al).2.liveSRS = w.nextSRS :: w.liveSRS ∧
      (((createFromPROJ4 E w text al).2.objs w.nextObj)._handle.id = w.nextSRS ∧
       ((createFromPROJ4 E w text al).2.objs w.nextObj)._owns_handle = true ∧
       ((createFromPROJ4 E w text al).2.objs w.nextObj)._init_type = "PROJ4".toList ∧
       ((createFromPROJ4 E w text al).2.objs w.nextObj)._init_str = al ∧
       ((createFromPROJ4 E w text al).2.objs w.nextObj)._initialized = false)) ∧
    ((c_str text).length < bufSize → (E.importFromWkt E.newSRS (c_str text)).1 = false →
      ∃ w2, createFromWKT E w text al = Except.ok (none, w2) ∧
        w2.liveSRS = w.liveSRS ∧ w2.objs = w.objs) ∧
    ((c_str text).length < bufSize → (E.importFromWkt E.newSRS (c_str text)).1 = true →
      ∃ w2, createFromWKT E w text al = Except.ok (some w.nextObj, w2) ∧
        w2.liveSRS = w.nextSRS :: w.liveSRS ∧
        (w2.objs w.nextObj)._handle.id = w.nextSRS ∧
        (w2.objs w.nextObj)._owns_handle = true ∧
        (w2.objs w.nextObj)._init_type = "WKT".toList ∧
        (w2.objs w.nextObj)._init_str = al ∧
        (w2.objs w.nextObj)._initialized = false) := by
  refine ⟨fun hi => ?_, fun hi => ?_, fun hlen hi => ?_, fun hlen hi => ?_⟩
  · simp [createFromPROJ4, hi, OSRNewSpatialReference, OSRImportFromProj4,
      OSRDestroySpatialReference, World.log]
  · simp [createFromPROJ4, hi, OSRNewSpatialReference, OSRImportFromProj4,
      SpatialReference.new, World.log]
  · rw [createFromWKT_eq E w text al hlen]
    simp [hi, OSRNewSpatialReference, OSRImportFromWkt, OSRDestroySpatialReference, World.log]
  · rw [createFromWKT_eq E w text al hlen]
    simp [hi, OSRNewSpatialReference, OSRImportFromWkt, SpatialReference.new, World.log]

theorem create_geogcs_overrun (E : OGR σ τ D) (w : World σ D) (R : CxxString)
    (hlen : bufSize ≤ (c_str ("GEOGCS[".toList ++ R)).length) (hlow : lowercase R = R) :
    create E w ("GEOGCS[".toList ++ R) = Except.error Fault.bufferOverrun := by
  have hlen2 : 4096 ≤ ("geogcs[".toList ++ R).length := by
    have h1 := c_str_length_le ("GEOGCS[".toList ++ R)
    have h2 : bufSize = 4096 := rfl
    rw [List.length_append] at h1 ⊢
    have h3 : "GEOGCS[".toList.length = 7 := rfl
    have h4 : "geogcs[".toList.length = 7 := rfl
    omega
  have hlower : lowercase ("GEOGCS[".toList ++ R) = "geogcs[".toList ++ R := by
    have h1 : lowercase ("GEOGCS[".toList ++ R)
        = lowercase "GEOGCS[".toList ++ lowercase R := by
      simp only [lowercase, List.map_append]
    rw [h1, hlow]
    rfl
  have hg : "geogcs[".toList ++ R = 'g' :: ("eogcs[".toList ++ R) := rfl
  have hne : ∀ s : CxxString, s.length < 4096 → ¬ ("geogcs[".toList ++ R = s) := by
    intro s hs h
    rw [h] at hlen2
    omega
  have hnp : ∀ c cs, c ≠ 'g' → ¬ (c :: cs <+: "geogcs[".toList ++ R) := by
    rintro c cs hs ⟨t, ht⟩
    rw [hg, List.cons_append] at ht
    exact hs (List.cons.inj ht).1
  have hp : "geogcs".toList <+: "geogcs[".toList ++ R := ⟨'[' :: R, rfl⟩
  simp only [create, hlower]
  rw [if_neg, if_neg, if_neg, if_neg, if_pos]
  · exact createFromWKT_overrun E w _ _ hlen
  · right
    rw [find_eq_zero_iff]
    exact hp
  · rw [find_eq_zero_iff, find_eq_zero_iff]
    rintro (h | h)
    · exact hnp 'e' "psg:".toList (by decide) h
    · exact hnp 'o' "sgeo:".toList (by decide) h
  · rw [find_eq_zero_iff]
    exact hnp '+' [] (by decide)
  · rintro (h | h)
    · exact hne _ (by decide) h
    · exact hne _ (by decide) h
  · rintro (h | h | h | h | h | h) <;> exact hne _ (by decide) h

theorem demoOGR_rejects_wkt (t : CxxString) (h : t ≠ "GEOGCS[WGS 84]".toList) :
    (demoOGR.importFromWkt demoOGR.newSRS t).1 = false := by
  show (if t = "GEOGCS[WGS 84]".toList then (true, t) else (false, [])).1 = false
  rw [if_neg h]

theorem c_str_replicate (n : Nat) (c : Char) (h : c ≠ Char.ofNat 0) :
    c_str (List.replicate n c) = List.replicate n c := by
  apply c_str_eq_self
  intro d hd
  rw [List.eq_of_mem_replicate hd]
  exact h

/-- C10: `createFromWKT` copies the text into `char buf[4096]`.  On the 4096-character text
`GEOGCS[` followed by 4089 blanks the copy needs 4097 bytes, one more than the buffer has, and
the call is a buffer overrun, on every engine and in every state; so is `create` on that
text. -/
theorem createFromWKT_buffer_overrun (E : OGR σ τ D) (w : World σ D) (al : CxxString) :
    (c_str ("GEOGCS[".toList ++ List.replicate 4089 ' ')).length + 1 = 4097 ∧
    bufSize = 4096 ∧
    strcpy bufSize (c_str ("GEOGCS[".toList ++ List.replicate 4089 ' '))
      = Except.error Fault.bufferOverrun ∧
    createFromWKT E w ("GEOGCS[".toList ++ List.replicate 4089 ' ') al
      = Except.error Fault.bufferOverrun ∧
    create E w ("GEOGCS[".toList ++ List.replicate 4089 ' ')
      = Except.error Fault.bufferOverrun := by
  have hc : c_str ("GEOGCS[".toList ++ List.replicate 4089 ' ')
      = "GEOGCS[".toList ++ List.replicate 4089 ' ' := by
    apply c_str_eq_self
    intro c hc
    rw [List.mem_append] at hc
    rcases hc with hc | hc
    · revert c
      decide
    · rw [List.eq_of_mem_replicate hc]
      decide
  have hl : (c_str ("GEOGCS[".toList ++ List.replicate 4089 ' ')).length = 4096 := by
    rw [hc, List.length_append, List.length_replicate]
    rfl
  have hb : bufSize ≤ (c_str ("GEOGCS[".toList ++ List.replicate 4089 ' ')).length := by
    rw [hl]
    decide
  have hlow : lowercase (List.replicate 4089 ' ') = List.replicate 4089 ' ' := by
    unfold lowercase
    rw [List.map_replicate]
    rfl
  refine ⟨by rw [hl], rfl, ?_, createFromWKT_overrun E w _ al hb,
    create_geogcs_overrun E w _ hb hlow⟩
  unfold strcpy
  rw [if_neg]
  rw [hl]
  decide

/-- C7: `createFromWKT` does not fail cleanly on every text the engine rejects.  The engine
rejects 4096 opening brackets, and the call on them is a buffer overrun, not a return of no
instance with the handle destroyed. -/
theorem createFromWKT_rejected_long_text :
    (demoOGR.importFromWkt demoOGR.newSRS (c_str (List.replicate 4096 '['))).1 = false ∧
    createFromWKT demoOGR startWorld (List.replicate 4096 '[') (List.replicate 4096 '[')
      = Except.error Fault.bufferOverrun ∧
    ∀ w2, createFromWKT demoOGR startWorld (List.replicate 4096 '[') (List.replicate 4096 '[')
      ≠ Except.ok (none, w2) := by
  have hc := c_str_replicate 4096 '[' (by decide)
  have ho := createFromWKT_overrun demoOGR startWorld (List.replicate 4096 '[')
    (List.replicate 4096 '[') (by rw [hc, List.length_replicate]; decide)
  refine ⟨?_, ho, fun w2 h => ?_⟩
  · apply demoOGR_rejects_wkt
    intro h
    have h2 := congrArg List.length h
    rw [hc, List.length_replicate] at h2
    revert h2
    decide
  · rw [ho] at h
    cases h

/-! ## The dispatcher -/

theorem create_webMercator (E : OGR σ τ D) (w : World σ D) (init : CxxString)
    (h : lowercase init ∈ webMercatorCodes) :
    create E w init = Except.ok (createFromPROJ4 E w mercatorProj4 init) := by
  simp only [webMercatorCodes, List.mem_cons, List.mem_singleton, List.not_mem_nil,
    or_false] at h
  simp only [create]
  rw [if_pos h]

theorem create_wgs84 (E : OGR σ τ D) (w : World σ D) (init : CxxString)
    (h : lowercase init ∈ wgs84Codes) :
    create E w init = Except.ok (createFromPROJ4 E w wgs84Proj4 init) := by
  simp only [wgs84Codes, List.mem_cons, List.mem_singleton, List.not_mem_nil,
    or_false] at h
  simp only [create]
  rcases h with h | h <;>
  · rw [h, if_neg (by decide), if_pos (by decide)]

/-- The instance a successful `createFromPROJ4` returns. -/
theorem createFromPROJ4_some (E : OGR σ τ D) (w w2 : World σ D) (text al : CxxString) (p : Nat)
    (h : createFromPROJ4 E w text al = (some p, w2)) :
    p = w.nextObj ∧ w2.nextObj = w.nextObj + 1 ∧
    (w2.objs p)._handle.obj = (E.importFromProj4 E.newSRS (c_str text)).2 ∧
    (w2.objs p)._initialized = false ∧ (w2.objs p)._wkt = [] ∧
    (w2.objs p)._init_str_lc = lowercase (w2.objs p)._init_str ∧
    (∀ q, q ≠ p → w2.objs q = w.objs q) := by
  by_cases hi : (E.importFromProj4 E.newSRS (c_str text)).1 = true
  · simp only [createFromPROJ4, hi, OSRNewSpatialReference, OSRImportFromProj4,
      SpatialReference.new, World.log, if_true, Prod.mk.injEq, Option.some.injEq] at h
    obtain ⟨hp, hw⟩ := h
    subst hw
    subst hp
    refine ⟨rfl, rfl, ?_, ?_, ?_, ?_, ?_⟩
    · simp only [Function.update_same]
    · simp only [Function.update_same]
    · simp only [Function.update_same]
    · simp only [Function.update_same]
    · intro q hq
      simp only [Function.update_noteq hq]
  · simp [createFromPROJ4, hi, OSRNewSpatialReference, OSRImportFromProj4] at h

/-- C1: when the lower-cased initializer is one of `epsg:900913`, `epsg:3785`, `epsg:41001`,
`epsg:54004`, `epsg:9804`, `epsg:9805`, `create` is `createFromPROJ4` on the text
`+proj=merc +lon_0=0 +k=1 +x_0=0 +y_0=0 +ellps=WGS84 +datum=WGS84 +units=m +no_defs` with the
original initializer as alias, and when it is `epsg:4326` or `wgs84`, on the text
`+proj=longlat +ellps=WGS84 +datum=WGS84 +no_defs`.  In both cases that text is the only text
the PROJ parser receives (no `+init=` rewrite), and an instance that is returned has the
original initializer as its `_init_str`. -/
theorem create_shortcut_codes (E : OGR σ τ D) (w : World σ D) (init : CxxString) :
    (lowercase init ∈
        ["epsg:900913".toList, "epsg:3785".toList, "epsg:41001".toList, "epsg:54004".toList,
        "epsg:9804".toList, "epsg:9805".toList] →
      create E w init
          = Except.ok (createFromPROJ4 E w
              "+proj=merc +lon_0=0 +k=1 +x_0=0 +y_0=0 +ellps=WGS84 +datum=WGS84 +units=m +no_defs".toList
              init) ∧
        proj4Texts (createFromPROJ4 E w
            "+proj=merc +lon_0=0 +k=1 +x_0=0 +y_0=0 +ellps=WGS84 +datum=WGS84 +units=m +no_defs".toList
            init).2.trace
          = proj4Texts w.trace ++
            ["+proj=merc +lon_0=0 +k=1 +x_0=0 +y_0=0 +ellps=WGS84 +datum=WGS84 +units=m +no_defs".toList] ∧
        ∀ p, (createFromPROJ4 E w
            "+proj=merc +lon_0=0 +k=1 +x_0=0 +y_0=0 +ellps=WGS84 +datum=WGS84 +units=m +no_defs".toList
            init).1 = some p →
          ((createFromPROJ4 E w
            "+proj=merc +lon_0=0 +k=1 +x_0=0 +y_0=0 +ellps=WGS84 +datum=WGS84 +units=m +no_defs".toList
            init).2.objs p)._init_str = init) ∧
    (lowercase init ∈ ["epsg:4326".toList, "wgs84".toList] →
      create E w init
          = Except.ok (createFromPROJ4 E w
              "+proj=longlat +ellps=WGS84 +datum=WGS84 +no_defs".toList
              init) ∧
        proj4Texts (createFromPROJ4 E w
            "+proj=longlat +ellps=WGS84 +datum=WGS84 +no_defs".toList
            init).2.trace
          = proj4Texts w.trace ++
            ["+proj=longlat +ellps=WGS84 +datum=WGS84 +no_defs".toList] ∧
        ∀ p, (createFromPROJ4 E w
            "+proj=longlat +ellps=WGS84 +datum=WGS84 +no_defs".toList
            init).1 = some p →
          ((createFromPROJ4 E w
            "+proj=longlat +ellps=WGS84 +datum=WGS84 +no_defs".toList
            init).2.objs p)._init_str = init) := by
  constructor
  · intro h
    have hc : lowercase init ∈ webMercatorCodes := h
    refine ⟨create_webMercator E w init hc, ?_,
      fun p hp => createFromPROJ4_alias E w mercatorProj4 init p hp⟩
    exact (createFromPROJ4_proj4Texts E w mercatorProj4 init).trans
      (by rw [c_str_mercatorProj4]; rfl)
  · intro h
    have hc : lowercase init ∈ wgs84Codes := h
    refine ⟨create_wgs84 E w init hc, ?_,
      fun p hp => createFromPROJ4_alias E w wgs84Proj4 init p hp⟩
    exact (createFromPROJ4_proj4Texts E w wgs84Proj4 init).trans
      (by rw [c_str_wgs84Proj4]; rfl)

/-- C1, at `"EPSG:3785"` and `"WGS84"` on the demonstration engine. -/
theorem create_shortcut_codes_witness :
    (create demoOGR startWorld "EPSG:3785".toList
          = Except.ok (createFromPROJ4 demoOGR startWorld
              "+proj=merc +lon_0=0 +k=1 +x_0=0 +y_0=0 +ellps=WGS84 +datum=WGS84 +units=m +no_defs".toList
              "EPSG:3785".toList) ∧
        proj4Texts (createFromPROJ4 demoOGR startWorld
            "+proj=merc +lon_0=0 +k=1 +x_0=0 +y_0=0 +ellps=WGS84 +datum=WGS84 +units=m +no_defs".toList
            "EPSG:3785".toList).2.trace
          = proj4Texts startWorld.trace ++
            ["+proj=merc +lon_0=0 +k=1 +x_0=0 +y_0=0 +ellps=WGS84 +datum=WGS84 +units=m +no_defs".toList] ∧
        ∀ p, (createFromPROJ4 demoOGR startWorld
            "+proj=merc +lon_0=0 +k=1 +x_0=0 +y_0=0 +ellps=WGS84 +datum=WGS84 +units=m +no_defs".toList
            "EPSG:3785".toList).1 = some p →
          ((createFromPROJ4 demoOGR startWorld
            "+proj=merc +lon_0=0 +k=1 +x_0=0 +y_0=0 +ellps=WGS84 +datum=WGS84 +units=m +no_defs".toList
            "EPSG:3785".toList).2.objs p)._init_str = "EPSG:3785".toList) ∧
    (create demoOGR startWorld "WGS84".toList
          = Except.ok (createFromPROJ4 demoOGR startWorld
              "+proj=longlat +ellps=WGS84 +datum=WGS84 +no_defs".toList
              "WGS84".toList) ∧
        proj4Texts (createFromPROJ4 demoOGR startWorld
            "+proj=longlat +ellps=WGS84 +datum=WGS84 +no_defs".toList
            "WGS84".toList).2.trace
          = proj4Texts startWorld.trace ++
            ["+proj=longlat +ellps=WGS84 +datum=WGS84 +no_defs".toList] ∧
        ∀ p, (createFromPROJ4 demoOGR startWorld
            "+proj=longlat +ellps=WGS84 +datum=WGS84 +no_defs".toList
            "WGS84".toList).1 = some p →
          ((createFromPROJ4 demoOGR startWorld
            "+proj=longlat +ellps=WGS84 +datum=WGS84 +no_defs".toList
            "WGS84".toList).2.objs p)._init_str = "WGS84".toList) :=
  ⟨(create_shortcut_codes demoOGR startWorld "EPSG:3785".toList).1 (by decide),
   (create_shortcut_codes demoOGR startWorld "WGS84".toList).2 (by decide)⟩

/-- C5, as amended: for an initializer that starts with `+`, `create` is `createFromPROJ4` on
the lower-cased initializer with the original initializer as alias; the text the PROJ parser
receives is the lower-cased initializer up to its first NUL, and an instance that is returned
has the original initializer as its `_init_str`. -/
theorem create_plus (E : OGR σ τ D) (w : World σ D) (init : CxxString)
    (h : init.head? = some '+') :
    create E w init = Except.ok (createFromPROJ4 E w (lowercase init) init) ∧
    proj4Texts (createFromPROJ4 E w (lowercase init) init).2.trace
      = proj4Texts w.trace ++ [c_str (lowercase init)] ∧
    ∀ p, (createFromPROJ4 E w (lowercase init) init).1 = some p →
      ((createFromPROJ4 E w (lowercase init) init).2.objs p)._init_str = init := by
  refine ⟨?_, createFromPROJ4_proj4Texts E w _ _, fun p hp => createFromPROJ4_alias E w _ _ p hp⟩
  cases init with
  | nil => simp at h
  | cons c rest =>
    simp only [List.head?_cons, Option.some.injEq] at h
    subst h
    have h1 := (plus_not_shortcut (lowercase rest)).1
    have h2 := (plus_not_shortcut (lowercase rest)).2
    simp only [webMercatorCodes, wgs84Codes, List.mem_cons, List.mem_singleton,
      List.not_mem_nil, or_false] at h1 h2
    have h3 : find ('+' :: lowercase rest) "+".toList = some 0 := by
      rw [find_eq_zero_iff]
      exact ⟨lowercase rest, rfl⟩
    simp only [create, lowercase_plus]
    rw [if_neg h1, if_neg h2, if_pos h3]

/-- C5, as amended, at `"+proj=longlat +datum=WGS84"` on the demonstration engine. -/
theorem create_plus_witness :
    create demoOGR startWorld "+proj=longlat +datum=WGS84".toList
      = Except.ok (createFromPROJ4 demoOGR startWorld
          (lowercase "+proj=longlat +datum=WGS84".toList) "+proj=longlat +datum=WGS84".toList) ∧
    proj4Texts (createFromPROJ4 demoOGR startWorld
        (lowercase "+proj=longlat +datum=WGS84".toList)
        "+proj=longlat +datum=WGS84".toList).2.trace
      = proj4Texts startWorld.trace ++ [c_str (lowercase "+proj=longlat +datum=WGS84".toList)] ∧
    ∀ p, (createFromPROJ4 demoOGR startWorld (lowercase "+proj=longlat +datum=WGS84".toList)
        "+proj=longlat +datum=WGS84".toList).1 = some p →
      ((createFromPROJ4 demoOGR startWorld (lowercase "+proj=longlat +datum=WGS84".toList)
        "+proj=longlat +datum=WGS84".toList).2.objs p)._init_str
        = "+proj=longlat +datum=WGS84".toList :=
  create_plus demoOGR startWorld "+proj=longlat +datum=WGS84".toList (by decide)

/-- C5 as stated fails: on `"+proj=longlat +datum=WGS84"` the PROJ parser receives
`"+proj=longlat +datum=wgs84"`, not the initializer, and on an engine that tells the two apart
`create( init )` returns no instance while `createFromPROJ4( init, init )` returns one. -/
theorem create_plus_counterexample :
    (create demoOGR startWorld "+proj=longlat +datum=WGS84".toList).toOption.map
        (fun r => (r.1, proj4Texts r.2.trace))
      = some (none, ["+proj=longlat +datum=wgs84".toList]) ∧
    ((createFromPROJ4 demoOGR startWorld "+proj=longlat +datum=WGS84".toList
        "+proj=longlat +datum=WGS84".toList).1,
      proj4Texts (createFromPROJ4 demoOGR startWorld "+proj=longlat +datum=WGS84".toList
        "+proj=longlat +datum=WGS84".toList).2.trace)
      = (some 1, ["+proj=longlat +datum=WGS84".toList]) ∧
    create demoOGR startWorld "+proj=longlat +datum=WGS84".toList
      ≠ Except.ok (createFromPROJ4 demoOGR startWorld "+proj=longlat +datum=WGS84".toList
          "+proj=longlat +datum=WGS84".toList) := by
  refine ⟨by decide, by decide, fun h => ?_⟩
  have h2 := congrArg (fun r => r.toOption.map (fun q => q.1)) h
  revert h2
  decide

/-- C9: when the lower-cased initializer is no shortcut code and starts with none of `+`,
`epsg:`, `osgeo:`, `projcs`, `geogcs`, `create` returns no instance and leaves the whole state
as it was: no engine handle is created, and the engine is not called. -/
theorem create_unrecognized (E : OGR σ τ D) (w : World σ D) (init : CxxString)
    (h1 : lowercase init ∉ webMercatorCodes) (h2 : lowercase init ∉ wgs84Codes)
    (h3 : ¬ "+".toList <+: lowercase init)
    (h4 : ¬ "epsg:".toList <+: lowercase init) (h5 : ¬ "osgeo:".toList <+: lowercase init)
    (h6 : ¬ "projcs".toList <+: lowercase init) (h7 : ¬ "geogcs".toList <+: lowercase init) :
    create E w init = Except.ok (none, w) := by
  simp only [webMercatorCodes, wgs84Codes, List.mem_cons, List.mem_singleton,
    List.not_mem_nil, or_false] at h1 h2
  rw [← find_eq_zero_iff] at h3 h4 h5 h6 h7
  simp only [create]
  rw [if_neg h1, if_neg h2, if_neg h3, if_neg (by tauto), if_neg (by tauto)]

/-- C9, at `"not-a-crs"` and at the empty initializer. -/
theorem create_unrecognized_witness :
    create demoOGR startWorld "not-a-crs".toList = Except.ok (none, startWorld) ∧
    create demoOGR startWorld [] = Except.ok (none, startWorld) :=
  ⟨create_unrecognized demoOGR startWorld "not-a-crs".toList (by decide) (by decide)
      (by decide) (by decide) (by decide) (by decide) (by decide),
   create_unrecognized demoOGR startWorld [] (by decide) (by decide)
      (by decide) (by decide) (by decide) (by decide) (by decide)⟩

/-! ## Lazy derivation: lemmas -/

theorem c_str_attr_names :
    c_str "GEOGCS".toList = "GEOGCS".toList ∧ c_str "PROJCS".toList = "PROJCS".toList ∧
    c_str "PROJECTION".toList = "PROJECTION".toList := by decide

theorem getOGRAttrValue_fst (E : OGR σ τ D) (w : World σ D) (h : Handle σ) (name : CxxString)
    (lower : Bool) :
    (getOGRAttrValue E w h name 0 lower).1
      = match E.attrValue h.obj (c_str name) 0 with
        | some t => if lower then lowercase t else t
        | none => [] := by
  unfold getOGRAttrValue OSRGetAttrValue
  cases E.attrValue h.obj (c_str name) 0 <;> rfl

theorem getOGRAttrValue_snd (E : OGR σ τ D) (w : World σ D) (h : Handle σ) (name : CxxString)
    (lower : Bool) :
    (getOGRAttrValue E w h name 0 lower).2 = w.log (Call.OSRGetAttrValue h.id (c_str name) 0) := by
  unfold getOGRAttrValue OSRGetAttrValue
  cases E.attrValue h.obj (c_str name) 0 <;> rfl

/-- The entries `init` adds to the trace. -/
theorem init_trace (E : OGR σ τ D) (w : World σ D) (this : Nat) :
    (init E w this).trace = w.trace ++
      [Call.init this,
       Call.OSRIsGeographic (w.objs this)._handle.id,
       Call.OSRGetSemiMajor (w.objs this)._handle.id,
       Call.OSRGetSemiMinor (w.objs this)._handle.id,
       Call.OSRGetAttrValue (w.objs this)._handle.id
         (if E.isGeographic (w.objs this)._handle.obj then "GEOGCS".toList else "PROJCS".toList) 0,
       Call.OSRGetAttrValue (w.objs this)._handle.id "PROJECTION".toList 0,
       Call.OSRExportToWkt (w.objs this)._handle.id] := by
  cases hg : E.isGeographic (w.objs this)._handle.obj <;>
    simp only [init, OSRExportToWkt, getOGRAttrValue_snd, World.log, OSRGetSemiMinor,
      OSRGetSemiMajor, OSRIsGeographic, c_str_attr_names.1, c_str_attr_names.2.1,
      c_str_attr_names.2.2, hg, Bool.false_eq_true, if_false, if_true,
      List.append_assoc, List.cons_append, List.nil_append]

/-- The members of the instance after `init`. -/
theorem init_objs_self (E : OGR σ τ D) (w : World σ D) (this : Nat) :
    (init E w this).objs this =
      { (w.objs this) with
        _is_geographic := E.isGeographic (w.objs this)._handle.obj
        _ellipsoid := some { radiusEquator := E.semiMajor (w.objs this)._handle.obj,
                             radiusPolar := E.semiMinor (w.objs this)._handle.obj }
        _name := derivedName E (w.objs this)._handle.obj
        _is_mercator := derivedMercator E (w.objs this)._handle.obj
        _wkt := match E.exportToWkt (w.objs this)._handle.obj with
          | some t => t
          | none => (w.objs this)._wkt
        _initialized := true } := by
  cases hg : E.isGeographic (w.objs this)._handle.obj <;>
    simp only [init, OSRExportToWkt, getOGRAttrValue_snd, getOGRAttrValue_fst, World.log,
      OSRGetSemiMinor, OSRGetSemiMajor, OSRIsGeographic, c_str_attr_names.1,
      c_str_attr_names.2.1, c_str_attr_names.2.2, Function.update_same, derivedName,
      derivedMercator, hg, Bool.false_eq_true, if_false, if_true] <;>
    cases E.attrValue (w.objs this)._handle.obj "PROJECTION".toList 0 <;>
    first
    | (cases E.attrValue (w.objs this)._handle.obj "GEOGCS".toList 0 <;> rfl)
    | (cases E.attrValue (w.objs this)._handle.obj "PROJCS".toList 0 <;> rfl)

theorem init_objs_other (E : OGR σ τ D) (w : World σ D) (this q : Nat) (h : q ≠ this) :
    (init E w this).objs q = w.objs q := by
  simp only [init, OSRExportToWkt, getOGRAttrValue_snd, World.log, OSRGetSemiMinor,
    OSRGetSemiMajor, OSRIsGeographic]
  rw [Function.update_noteq h]
  split <;> simp only [getOGRAttrValue_snd, World.log]

theorem init_frame (E : OGR σ τ D) (w : World σ D) (this : Nat) :
    (init E w this).liveSRS = w.liveSRS ∧ (init E w this).liveXforms = w.liveXforms ∧
    (init E w this).nextObj = w.nextObj ∧ (init E w this).nextSRS = w.nextSRS ∧
    (init E w this).nextXform = w.nextXform := by
  cases hg : E.isGeographic (w.objs this)._handle.obj <;>
    simp only [init, OSRExportToWkt, getOGRAttrValue_snd, World.log, OSRGetSemiMinor,
      OSRGetSemiMajor, OSRIsGeographic, hg, Bool.false_eq_true, if_false, if_true, and_self]

theorem ensureInit_of_initialized (E : OGR σ τ D) (w : World σ D) (this : Nat)
    (h : (w.objs this)._initialized = true) : ensureInit E w this = w := by
  simp only [ensureInit, h, if_true]

theorem ensureInit_of_not_initialized (E : OGR σ τ D) (w : World σ D) (this : Nat)
    (h : (w.objs this)._initialized = false) : ensureInit E w this = init E w this := by
  simp only [ensureInit, h, Bool.false_eq_true, if_false]

theorem ensureInit_initialized (E : OGR σ τ D) (w : World σ D) (this : Nat) :
    ((ensureInit E w this).objs this)._initialized = true := by
  cases h : (w.objs this)._initialized
  · rw [ensureInit_of_not_initialized E w this h, init_objs_self]
  · rw [ensureInit_of_initialized E w this h, h]

theorem ensureInit_objs_other (E : OGR σ τ D) (w : World σ D) (this q : Nat) (h : q ≠ this) :
    (ensureInit E w this).objs q = w.objs q := by
  cases hi : (w.objs this)._initialized
  · rw [ensureInit_of_not_initialized E w this hi, init_objs_other E w this q h]
  · rw [ensureInit_of_initialized E w this hi]

/-- The guard leaves the handle, the initializer and its tag of every instance alone. -/
theorem ensureInit_core (E : OGR σ τ D) (w : World σ D) (this q : Nat) :
    ((ensureInit E w this).objs q)._handle = (w.objs q)._handle ∧
    ((ensureInit E w this).objs q)._init_type = (w.objs q)._init_type ∧
    ((ensureInit E w this).objs q)._init_str = (w.objs q)._init_str ∧
    ((ensureInit E w this).objs q)._init_str_lc = (w.objs q)._init_str_lc ∧
    ((ensureInit E w this).objs q)._owns_handle = (w.objs q)._owns_handle := by
  by_cases hq : q = this
  · subst hq
    cases hi : (w.objs q)._initialized
    · rw [ensureInit_of_not_initialized E w q hi, init_objs_self]
      exact ⟨rfl, rfl, rfl, rfl, rfl⟩
    · rw [ensureInit_of_initialized E w q hi]
      exact ⟨rfl, rfl, rfl, rfl, rfl⟩
  · rw [ensureInit_objs_other E w this q hq]
    exact ⟨rfl, rfl, rfl, rfl, rfl⟩

/-- After the guard the derived members of a well-formed instance hold what the engine answers
for its handle. -/
theorem ensureInit_Derived (E : OGR σ τ D) (w : World σ D) (this : Nat)
    (h : WF E (w.objs this)) : Derived E ((ensureInit E w this).objs this) := by
  cases hi : (w.objs this)._initialized
  · rw [ensureInit_of_not_initialized E w this hi, init_objs_self]
    refine ⟨rfl, rfl, rfl, rfl, ?_⟩
    show (match E.exportToWkt (w.objs this)._handle.obj with
      | some t => t
      | none => (w.objs this)._wkt) = derivedWKT E (w.objs this)._handle.obj
    rw [h.2.1 hi]
    unfold derivedWKT
    cases E.exportToWkt (w.objs this)._handle.obj <;> rfl
  · rw [ensureInit_of_initialized E w this hi]
    exact h.2.2 hi

/-- The guard keeps every instance well-formed. -/
theorem ensureInit_WF (E : OGR σ τ D) (w : World σ D) (this q : Nat)
    (h : WF E (w.objs q)) : WF E ((ensureInit E w this).objs q) := by
  by_cases hq : q = this
  · subst hq
    have hc := ensureInit_core E w q q
    refine ⟨?_, ?_, fun _ => ensureInit_Derived E w q h⟩
    · rw [hc.2.2.2.1, hc.2.2.1]
      exact h.1
    · intro hf
      rw [ensureInit_initialized] at hf
      cases hf
  · rw [ensureInit_objs_other E w this q hq]
    exact h

theorem ensureInit_frame (E : OGR σ τ D) (w : World σ D) (this : Nat) :
    (ensureInit E w this).liveSRS = w.liveSRS ∧
    (ensureInit E w this).liveXforms = w.liveXforms ∧
    (ensureInit E w this).nextObj = w.nextObj ∧ (ensureInit E w this).nextSRS = w.nextSRS ∧
    (ensureInit E w this).nextXform = w.nextXform := by
  cases hi : (w.objs this)._initialized
  · rw [ensureInit_of_not_initialized E w this hi]
    exact init_frame E w this
  · rw [ensureInit_of_initialized E w this hi]
    exact ⟨rfl, rfl, rfl, rfl, rfl⟩

/-! ## The trace: lemmas -/

theorem xformsCreated_append (a b : List Call) :
    xformsCreated (a ++ b) = xformsCreated a ++ xformsCreated b := by
  induction a with
  | nil => rfl
  | cons c cs ih =>
    cases c with
    | OCTNewCoordinateTransformation x y r => cases r <;> simp [xformsCreated, ih]
    | _ => simp [xformsCreated, ih]

theorem xformsDestroyed_append (a b : List Call) :
    xformsDestroyed (a ++ b) = xformsDestroyed a ++ xformsDestroyed b := by
  induction a with
  | nil => rfl
  | cons c cs ih => cases c <;> simp [xformsDestroyed, ih]

theorem isSameCalls_append (a b : List Call) :
    isSameCalls (a ++ b) = isSameCalls a + isSameCalls b := by
  induction a with
  | nil => simp [isSameCalls]
  | cons c cs ih => cases c <;> simp [isSameCalls, ih]; omega

/-- What the guard adds to the trace: one entry to `init` on this instance if it was not
initialized, none on any other instance, no `OSRIsSame`, no coordinate transformation. -/
theorem ensureInit_trace (E : OGR σ τ D) (w : World σ D) (this : Nat) :
    initRuns this (ensureInit E w this).trace
      = initRuns this w.trace + (if (w.objs this)._initialized then 0 else 1) ∧
    (∀ q, q ≠ this → initRuns q (ensureInit E w this).trace = initRuns q w.trace) ∧
    isSameCalls (ensureInit E w this).trace = isSameCalls w.trace ∧
    xformsCreated (ensureInit E w this).trace = xformsCreated w.trace ∧
    xformsDestroyed (ensureInit E w this).trace = xformsDestroyed w.trace := by
  cases hi : (w.objs this)._initialized
  · rw [ensureInit_of_not_initialized E w this hi, init_trace]
    refine ⟨?_, ?_, ?_, ?_, ?_⟩
    · simp [initRuns, List.count_cons]
    · intro q hq
      simp [initRuns, List.count_cons, Ne.symm hq]
    · simp [isSameCalls_append, isSameCalls]
    · simp [xformsCreated_append, xformsCreated]
    · simp [xformsDestroyed_append, xformsDestroyed]
  · rw [ensureInit_of_initialized E w this hi]
    simp

/-! ## Equivalence: lemmas -/

/-- On an initialized instance the accessors read the members and change nothing. -/
theorem accessors_of_initialized (E : OGR σ τ D) (w : World σ D) (this : Nat)
    (h : (w.objs this)._initialized = true) :
    isGeographic E w this = ((w.objs this)._is_geographic, w) ∧
    isProjected E w this = (!(w.objs this)._is_geographic, w) ∧
    getName E w this = ((w.objs this)._name, w) ∧
    getEllipsoid E w this = ((w.objs this)._ellipsoid, w) ∧
    getWKT E w this = ((w.objs this)._wkt, w) ∧
    isMercator E w this = ((w.objs this)._is_mercator, w) := by
  simp only [isGeographic, isProjected, getName, getEllipsoid, getWKT, isMercator,
    ensureInit_of_initialized E w this h, and_self]

/-- The fourth check on two initialized instances whose derived members are in place. -/
theorem geographicSameEllipsoid_of_initialized (E : OGR σ τ D) (w : World σ D) (a b : Nat)
    (ha : (w.objs a)._initialized = true) (hb : (w.objs b)._initialized = true)
    (hda : Derived E (w.objs a)) (hdb : Derived E (w.objs b)) :
    geographicSameEllipsoid E w a b = Except.ok
      (E.isGeographic (w.objs a)._handle.obj && E.isGeographic (w.objs b)._handle.obj &&
        E.deq (E.semiMajor (w.objs a)._handle.obj) (E.semiMajor (w.objs b)._handle.obj) &&
        E.deq (E.semiMinor (w.objs a)._handle.obj) (E.semiMinor (w.objs b)._handle.obj), w) := by
  have hA := accessors_of_initialized E w a ha
  have hB := accessors_of_initialized E w b hb
  have he : sameRadiusEquator E w a b = Except.ok
      (E.deq (E.semiMajor (w.objs a)._handle.obj) (E.semiMajor (w.objs b)._handle.obj), w) := by
    simp only [sameRadiusEquator, hA.2.2.2.1, hB.2.2.2.1, hda.2.1, hdb.2.1]
  have hp : sameRadiusPolar E w a b = Except.ok
      (E.deq (E.semiMinor (w.objs a)._handle.obj) (E.semiMinor (w.objs b)._handle.obj), w) := by
    simp only [sameRadiusPolar, hA.2.2.2.1, hB.2.2.2.1, hda.2.1, hdb.2.1]
  simp only [geographicSameEllipsoid, hA.1, hB.1, hda.1, hdb.1, he, hp]
  cases E.isGeographic (w.objs a)._handle.obj <;>
  cases E.isGeographic (w.objs b)._handle.obj <;>
  cases E.deq (E.semiMajor (w.objs a)._handle.obj) (E.semiMajor (w.objs b)._handle.obj) <;>
  simp

/-- The result of `isEquivalentTo` on two well-formed instances, and the state it leaves. -/
theorem isEquivalentTo_eq (E : OGR σ τ D) (w : World σ D) (a b : Nat)
    (ha : WF E (w.objs a)) (hb : WF E (w.objs b)) :
    isEquivalentTo E w a (some b) = Except.ok
      (fiveChecks E (decide (a = b)) (w.objs a) (w.objs b),
       if a = b ∨ lowercase (w.objs a)._init_str = lowercase (w.objs b)._init_str then
         ensureInit E w a
       else if firstFourChecks E (decide (a = b)) (w.objs a) (w.objs b) then
         ensureInit E (ensureInit E w a) b
       else
         (ensureInit E (ensureInit E w a) b).log
           (Call.OSRIsSame (w.objs a)._handle.id (w.objs b)._handle.id)) := by
  by_cases hab : a = b
  · subst hab
    simp [isEquivalentTo, fiveChecks]
  have hba : b ≠ a := fun h => hab h.symm
  have hA1 := ensureInit_initialized E w a
  have hDA := ensureInit_Derived E w a ha
  have hcA := ensureInit_core E w a a
  have hB1 := ensureInit_objs_other E w a b hba
  have hA2 := ensureInit_objs_other E (ensureInit E w a) b a hab
  have hB2 := ensureInit_initialized E (ensureInit E w a) b
  have hDB := ensureInit_Derived E (ensureInit E w a) b (hB1 ▸ hb)
  have hcB := ensureInit_core E (ensureInit E w a) b b
  have hlcA : ((ensureInit E w a).objs a)._init_str_lc = lowercase (w.objs a)._init_str := by
    rw [hcA.2.2.2.1, ha.1]
  have hlcB : ((ensureInit E w a).objs b)._init_str_lc = lowercase (w.objs b)._init_str := by
    rw [hB1, hb.1]
  have hhA : ((ensureInit E w a).objs a)._handle = (w.objs a)._handle := hcA.1
  have hhB : ((ensureInit E (ensureInit E w a) b).objs b)._handle = (w.objs b)._handle := by
    rw [hcB.1, hB1]
  have hwA : getWKT E (ensureInit E w a) a
      = (derivedWKT E (w.objs a)._handle.obj, ensureInit E w a) := by
    rw [(accessors_of_initialized E _ a hA1).2.2.2.2.1, hDA.2.2.2.2, hhA]
  have hwB : getWKT E (ensureInit E w a) b
      = (derivedWKT E (w.objs b)._handle.obj, ensureInit E (ensureInit E w a) b) := by
    simp only [getWKT]
    rw [hDB.2.2.2.2, hhB]
  have hg := geographicSameEllipsoid_of_initialized E (ensureInit E (ensureInit E w a) b) a b
    (by rw [hA2]; exact hA1) hB2 (by rw [hA2]; exact hDA) hDB
  rw [hA2, hhA, hhB] at hg
  simp only [isEquivalentTo, if_neg hab, hlcA, hlcB, hwA, hwB, hg, lastResort, OSRIsSame,
    fiveChecks, firstFourChecks, false_or, decide_False, Bool.false_or, hA2, hhA, hhB]
  by_cases h2 : lowercase (w.objs a)._init_str = lowercase (w.objs b)._init_str
  · simp [h2]
  by_cases h3 : derivedWKT E (w.objs a)._handle.obj = derivedWKT E (w.objs b)._handle.obj
  · simp [h2, h3, hab]
  simp only [h2, h3, hab, or_self, if_false, decide_False, Bool.false_or]
  cases h4 : (E.isGeographic (w.objs a)._handle.obj && E.isGeographic (w.objs b)._handle.obj &&
        E.deq (E.semiMajor (w.objs a)._handle.obj) (E.semiMajor (w.objs b)._handle.obj) &&
        E.deq (E.semiMinor (w.objs a)._handle.obj) (E.semiMinor (w.objs b)._handle.obj))
  · simp
  · simp

theorem fiveChecks_iff (E : OGR σ τ D) (same : Bool) (x y : SpatialReference σ D) :
    fiveChecks E same x y = true ↔
      same = true ∨
      lowercase x._init_str = lowercase y._init_str ∨
      derivedWKT E x._handle.obj = derivedWKT E y._handle.obj ∨
      (E.isGeographic x._handle.obj = true ∧ E.isGeographic y._handle.obj = true ∧
        E.deq (E.semiMajor x._handle.obj) (E.semiMajor y._handle.obj) = true ∧
        E.deq (E.semiMinor x._handle.obj) (E.semiMinor y._handle.obj) = true) ∨
      E.isSame x._handle.obj y._handle.obj = true := by
  simp only [fiveChecks, Bool.or_eq_true, Bool.and_eq_true, decide_eq_true_eq, or_assoc,
    and_assoc]

theorem firstFourChecks_iff (E : OGR σ τ D) (same : Bool) (x y : SpatialReference σ D) :
    firstFourChecks E same x y = true ↔
      same = true ∨
      lowercase x._init_str = lowercase y._init_str ∨
      derivedWKT E x._handle.obj = derivedWKT E y._handle.obj ∨
      (E.isGeographic x._handle.obj = true ∧ E.isGeographic y._handle.obj = true ∧
        E.deq (E.semiMajor x._handle.obj) (E.semiMajor y._handle.obj) = true ∧
        E.deq (E.semiMinor x._handle.obj) (E.semiMinor y._handle.obj) = true) := by
  simp only [firstFourChecks, Bool.or_eq_true, Bool.and_eq_true, decide_eq_true_eq, or_assoc,
    and_assoc]

/-- What `isEquivalentTo` adds to the count of `OSRIsSame` calls. -/
theorem isEquivalentTo_isSameCalls (E : OGR σ τ D) (w : World σ D) (a b : Nat) :
    isSameCalls
      (if a = b ∨ lowercase (w.objs a)._init_str = lowercase (w.objs b)._init_str then
         ensureInit E w a
       else if firstFourChecks E (decide (a = b)) (w.objs a) (w.objs b) then
         ensureInit E (ensureInit E w a) b
       else
         (ensureInit E (ensureInit E w a) b).log
           (Call.OSRIsSame (w.objs a)._handle.id (w.objs b)._handle.id)).trace
      = isSameCalls w.trace +
          (if firstFourChecks E (decide (a = b)) (w.objs a) (w.objs b) then 0 else 1) := by
  have h1 := (ensureInit_trace E w a).2.2.1
  have h2 := (ensureInit_trace E (ensureInit E w a) b).2.2.1
  by_cases hc : a = b ∨ lowercase (w.objs a)._init_str = lowercase (w.objs b)._init_str
  · have h4 : firstFourChecks E (decide (a = b)) (w.objs a) (w.objs b) = true := by
      rw [firstFourChecks_iff]
      rcases hc with hc | hc
      · exact Or.inl (decide_eq_true hc)
      · exact Or.inr (Or.inl hc)
    rw [if_pos hc, h4, h1]
    rfl
  · rw [if_neg hc]
    cases h4 : firstFourChecks E (decide (a = b)) (w.objs a) (w.objs b)
    · simp only [Bool.false_eq_true, if_false, World.log, isSameCalls_append, h2, h1,
        isSameCalls]
    · simp only [if_true, h2, h1, Nat.add_zero]

/-- C2: on two instances in the state the constructor and `init` leave them in,
`isEquivalentTo` returns true exactly when the two are the same instance, or their lower-cased
initializers are equal, or the WKT texts the derivation yields from their handles are equal, or
both handles are geographic with equal semi-major and equal semi-minor axes, or `OSRIsSame`
answers true on the two handles.  The values compared are those of the handles whether or not
an instance was initialized before.  `OSRIsSame` is called once when the first four checks all
fail, and not at all otherwise. -/
theorem isEquivalentTo_five_checks (E : OGR σ τ D) (w : World σ D) (a b : Nat)
    (ha : WF E (w.objs a)) (hb : WF E (w.objs b)) :
    ∃ r w2, isEquivalentTo E w a (some b) = Except.ok (r, w2) ∧
      (r = true ↔
        a = b ∨
        lowercase (w.objs a)._init_str = lowercase (w.objs b)._init_str ∨
        derivedWKT E (w.objs a)._handle.obj = derivedWKT E (w.objs b)._handle.obj ∨
        (E.isGeographic (w.objs a)._handle.obj = true ∧
          E.isGeographic (w.objs b)._handle.obj = true ∧
          E.deq (E.semiMajor (w.objs a)._handle.obj) (E.semiMajor (w.objs b)._handle.obj)
            = true ∧
          E.deq (E.semiMinor (w.objs a)._handle.obj) (E.semiMinor (w.objs b)._handle.obj)
            = true) ∨
        E.isSame (w.objs a)._handle.obj (w.objs b)._handle.obj = true) ∧
      ((a = b ∨
        lowercase (w.objs a)._init_str = lowercase (w.objs b)._init_str ∨
        derivedWKT E (w.objs a)._handle.obj = derivedWKT E (w.objs b)._handle.obj ∨
        (E.isGeographic (w.objs a)._handle.obj = true ∧
          E.isGeographic (w.objs b)._handle.obj = true ∧
          E.deq (E.semiMajor (w.objs a)._handle.obj) (E.semiMajor (w.objs b)._handle.obj)
            = true ∧
          E.deq (E.semiMinor (w.objs a)._handle.obj) (E.semiMinor (w.objs b)._handle.obj)
            = true)) →
        isSameCalls w2.trace = isSameCalls w.trace) ∧
      (¬ (a = b ∨
        lowercase (w.objs a)._init_str = lowercase (w.objs b)._init_str ∨
        derivedWKT E (w.objs a)._handle.obj = derivedWKT E (w.objs b)._handle.obj ∨
        (E.isGeographic (w.objs a)._handle.obj = true ∧
          E.isGeographic (w.objs b)._handle.obj = true ∧
          E.deq (E.semiMajor (w.objs a)._handle.obj) (E.semiMajor (w.objs b)._handle.obj)
            = true ∧
          E.deq (E.semiMinor (w.objs a)._handle.obj) (E.semiMinor (w.objs b)._handle.obj)
            = true)) →
        isSameCalls w2.trace = isSameCalls w.trace + 1 ∧
        r = E.isSame (w.objs a)._handle.obj (w.objs b)._handle.obj) := by
  refine ⟨_, _, isEquivalentTo_eq E w a b ha hb, ?_, ?_, ?_⟩
  · rw [fiveChecks_iff, decide_eq_true_eq]
  · intro h
    have h4 : firstFourChecks E (decide (a = b)) (w.objs a) (w.objs b) = true := by
      rw [firstFourChecks_iff, decide_eq_true_eq]
      exact h
    rw [isEquivalentTo_isSameCalls, h4]
    rfl
  · intro h
    have h4 : firstFourChecks E (decide (a = b)) (w.objs a) (w.objs b) = false := by
      rw [← Bool.not_eq_true, firstFourChecks_iff, decide_eq_true_eq]
      exact h
    refine ⟨?_, ?_⟩
    · rw [isEquivalentTo_isSameCalls, h4]
      rfl
    · have h5 : fiveChecks E (decide (a = b)) (w.objs a) (w.objs b)
          = (firstFourChecks E (decide (a = b)) (w.objs a) (w.objs b) ||
              E.isSame (w.objs a)._handle.obj (w.objs b)._handle.obj) := rfl
      rw [h5, h4, Bool.false_or]

theorem twoInstances_WF : WF demoOGR (twoInstances.objs 1) ∧ WF demoOGR (twoInstances.objs 2) :=
  ⟨⟨by decide, fun _ => by decide, fun h => absurd h (by decide)⟩,
   ⟨by decide, fun _ => by decide, fun h => absurd h (by decide)⟩⟩

/-- C2, on the instances of `epsg:4326` and `EPSG:900913`, neither yet initialized. -/
theorem isEquivalentTo_five_checks_witness :
    ∃ r w2, isEquivalentTo demoOGR twoInstances 1 (some 2) = Except.ok (r, w2) ∧
      (r = true ↔
        1 = 2 ∨
        lowercase (twoInstances.objs 1)._init_str = lowercase (twoInstances.objs 2)._init_str ∨
        derivedWKT demoOGR (twoInstances.objs 1)._handle.obj
          = derivedWKT demoOGR (twoInstances.objs 2)._handle.obj ∨
        (demoOGR.isGeographic (twoInstances.objs 1)._handle.obj = true ∧
          demoOGR.isGeographic (twoInstances.objs 2)._handle.obj = true ∧
          demoOGR.deq (demoOGR.semiMajor (twoInstances.objs 1)._handle.obj)
            (demoOGR.semiMajor (twoInstances.objs 2)._handle.obj) = true ∧
          demoOGR.deq (demoOGR.semiMinor (twoInstances.objs 1)._handle.obj)
            (demoOGR.semiMinor (twoInstances.objs 2)._handle.obj) = true) ∨
        demoOGR.isSame (twoInstances.objs 1)._handle.obj (twoInstances.objs 2)._handle.obj
          = true) ∧
      ((1 = 2 ∨
        lowercase (twoInstances.objs 1)._init_str = lowercase (twoInstances.objs 2)._init_str ∨
        derivedWKT demoOGR (twoInstances.objs 1)._handle.obj
          = derivedWKT demoOGR (twoInstances.objs 2)._handle.obj ∨
        (demoOGR.isGeographic (twoInstances.objs 1)._handle.obj = true ∧
          demoOGR.isGeographic (twoInstances.objs 2)._handle.obj = true ∧
          demoOGR.deq (demoOGR.semiMajor (twoInstances.objs 1)._handle.obj)
            (demoOGR.semiMajor (twoInstances.objs 2)._handle.obj) = true ∧
          demoOGR.deq (demoOGR.semiMinor (twoInstances.objs 1)._handle.obj)
            (demoOGR.semiMinor (twoInstances.objs 2)._handle.obj) = true)) →
        isSameCalls w2.trace = isSameCalls twoInstances.trace) ∧
      (¬ (1 = 2 ∨
        lowercase (twoInstances.objs 1)._init_str = lowercase (twoInstances.objs 2)._init_str ∨
        derivedWKT demoOGR (twoInstances.objs 1)._handle.obj
          = derivedWKT demoOGR (twoInstances.objs 2)._handle.obj ∨
        (demoOGR.isGeographic (twoInstances.objs 1)._handle.obj = true ∧
          demoOGR.isGeographic (twoInstances.objs 2)._handle.obj = true ∧
          demoOGR.deq (demoOGR.semiMajor (twoInstances.objs 1)._handle.obj)
            (demoOGR.semiMajor (twoInstances.objs 2)._handle.obj) = true ∧
          demoOGR.deq (demoOGR.semiMinor (twoInstances.objs 1)._handle.obj)
            (demoOGR.semiMinor (twoInstances.objs 2)._handle.obj) = true)) →
        isSameCalls w2.trace = isSameCalls twoInstances.trace + 1 ∧
        r = demoOGR.isSame (twoInstances.objs 1)._handle.obj
              (twoInstances.objs 2)._handle.obj) :=
  isEquivalentTo_five_checks demoOGR twoInstances 1 2 twoInstances_WF.1 twoInstances_WF.2

theorem fiveChecks_symm (E : OGR σ τ D) (hd : ∀ x y, E.deq x y = E.deq y x)
    (hs : ∀ x y, E.isSame x y = E.isSame y x) (a b : Nat) (x y : SpatialReference σ D) :
    fiveChecks E (decide (a = b)) x y = fiveChecks E (decide (b = a)) y x := by
  rw [Bool.eq_iff_iff, fiveChecks_iff, fiveChecks_iff, decide_eq_true_eq, decide_eq_true_eq,
    hd (E.semiMajor x._handle.obj), hd (E.semiMinor x._handle.obj), hs x._handle.obj]
  constructor
  · rintro (h | h | h | ⟨h1, h2, h3, h4⟩ | h)
    · exact Or.inl h.symm
    · exact Or.inr (Or.inl h.symm)
    · exact Or.inr (Or.inr (Or.inl h.symm))
    · exact Or.inr (Or.inr (Or.inr (Or.inl ⟨h2, h1, h3, h4⟩)))
    · exact Or.inr (Or.inr (Or.inr (Or.inr h)))
  · rintro (h | h | h | ⟨h1, h2, h3, h4⟩ | h)
    · exact Or.inl h.symm
    · exact Or.inr (Or.inl h.symm)
    · exact Or.inr (Or.inr (Or.inl h.symm))
    · exact Or.inr (Or.inr (Or.inr (Or.inl ⟨h2, h1, h3, h4⟩)))
    · exact Or.inr (Or.inr (Or.inr (Or.inr h)))

/-- C3: `isEquivalentTo` is reflexive, `a.isEquivalentTo( a )` returns true in every state; and
it is symmetric, on two instances in the state the constructor and `init` leave them in
`a.isEquivalentTo( b )` and `b.isEquivalentTo( a )` return the same answer, for an engine whose
`OSRIsSame` is symmetric (`==` on `double` being symmetric). -/
theorem isEquivalentTo_refl_symm (E : OGR σ τ D) (w : World σ D)
    (hd : ∀ x y, E.deq x y = E.deq y x) (hs : ∀ x y, E.isSame x y = E.isSame y x) :
    (∀ a, ∃ w2, isEquivalentTo E w a (some a) = Except.ok (true, w2)) ∧
    (∀ a b, WF E (w.objs a) → WF E (w.objs b) →
      ∃ r wa wb, isEquivalentTo E w a (some b) = Except.ok (r, wa) ∧
        isEquivalentTo E w b (some a) = Except.ok (r, wb)) := by
  constructor
  · intro a
    exact ⟨ensureInit E w a, by simp only [isEquivalentTo, if_true]⟩
  · intro a b ha hb
    have h1 := isEquivalentTo_eq E w a b ha hb
    have h2 := isEquivalentTo_eq E w b a hb ha
    rw [← fiveChecks_symm E hd hs a b] at h2
    exact ⟨_, _, _, h1, h2⟩

theorem demoOGR_symm :
    (∀ x y, demoOGR.deq x y = demoOGR.deq y x) ∧
    (∀ x y, demoOGR.isSame x y = demoOGR.isSame y x) := by
  constructor
  · intro x y
    show decide (x = y) = decide (y = x)
    rw [Bool.eq_iff_iff, decide_eq_true_eq, decide_eq_true_eq]
    exact eq_comm
  · intro x y
    show decide (x = y) = decide (y = x)
    rw [Bool.eq_iff_iff, decide_eq_true_eq, decide_eq_true_eq]
    exact eq_comm

/-- C3, on the small engine and the instances of `epsg:4326` and `EPSG:900913`. -/
theorem isEquivalentTo_refl_symm_witness :
    (∀ a, ∃ w2, isEquivalentTo demoOGR twoInstances a (some a) = Except.ok (true, w2)) ∧
    ∃ r wa wb, isEquivalentTo demoOGR twoInstances 1 (some 2) = Except.ok (r, wa) ∧
      isEquivalentTo demoOGR twoInstances 2 (some 1) = Except.ok (r, wb) :=
  ⟨(isEquivalentTo_refl_symm demoOGR twoInstances demoOGR_symm.1 demoOGR_symm.2).1,
   (isEquivalentTo_refl_symm demoOGR twoInstances demoOGR_symm.1 demoOGR_symm.2).2 1 2
     twoInstances_WF.1 twoInstances_WF.2⟩

/-- Two well-formed instances whose handles hold the same engine content are equivalent. -/
theorem isEquivalentTo_of_same_content (E : OGR σ τ D) (w : World σ D) (a b : Nat)
    (ha : WF E (w.objs a)) (hb : WF E (w.objs b))
    (h : (w.objs a)._handle.obj = (w.objs b)._handle.obj) :
    ∃ w2, isEquivalentTo E w a (some b) = Except.ok (true, w2) := by
  have h1 := isEquivalentTo_eq E w a b ha hb
  have h2 : fiveChecks E (decide (a = b)) (w.objs a) (w.objs b) = true := by
    rw [fiveChecks_iff, h]
    exact Or.inr (Or.inr (Or.inl rfl))
  rw [h2] at h1
  exact ⟨_, h1⟩

/-- The engine content behind the handle of an instance `create` made from a shortcut code. -/
theorem create_shortcut_content (E : OGR σ τ D) (w w2 : World σ D) (init : CxxString) (p : Nat)
    (h : create E w init = Except.ok (some p, w2)) :
    (lowercase init ∈ wgs84Codes →
      (w2.objs p)._handle.obj = (E.importFromProj4 E.newSRS wgs84Proj4).2) ∧
    (lowercase init ∈ webMercatorCodes →
      (w2.objs p)._handle.obj = (E.importFromProj4 E.newSRS mercatorProj4).2) := by
  constructor
  · intro hc
    rw [create_wgs84 E w init hc] at h
    have h2 := createFromPROJ4_some E w w2 _ _ p (Except.ok.inj h)
    rw [h2.2.2.1, c_str_wgs84Proj4]
  · intro hc
    rw [create_webMercator E w init hc] at h
    have h2 := createFromPROJ4_some E w w2 _ _ p (Except.ok.inj h)
    rw [h2.2.2.1, c_str_mercatorProj4]

/-- C4: let `create` succeed on two initializers whose lower-cased forms are both in
`epsg:4326`, `wgs84`, or both among the Web Mercator codes, returning the instances `p1` and
`p2`.  In every state in which the two instances still hold the handles they were created with
and are in the state the constructor and `init` leave them in, `isEquivalentTo` returns true
in both directions. -/
theorem shortcut_group_equivalent (E : OGR σ τ D) (wa wa2 wb wb2 w : World σ D)
    (i1 i2 : CxxString) (p1 p2 : Nat)
    (hg : (lowercase i1 ∈ wgs84Codes ∧ lowercase i2 ∈ wgs84Codes) ∨
          (lowercase i1 ∈ webMercatorCodes ∧ lowercase i2 ∈ webMercatorCodes))
    (h1 : create E wa i1 = Except.ok (some p1, wa2))
    (h2 : create E wb i2 = Except.ok (some p2, wb2))
    (hw1 : WF E (w.objs p1)) (hh1 : (w.objs p1)._handle = (wa2.objs p1)._handle)
    (hw2 : WF E (w.objs p2)) (hh2 : (w.objs p2)._handle = (wb2.objs p2)._handle) :
    (∃ w2, isEquivalentTo E w p1 (some p2) = Except.ok (true, w2)) ∧
    (∃ w2, isEquivalentTo E w p2 (some p1) = Except.ok (true, w2)) := by
  have hc1 := create_shortcut_content E wa wa2 i1 p1 h1
  have hc2 := create_shortcut_content E wb wb2 i2 p2 h2
  have hs : (w.objs p1)._handle.obj = (w.objs p2)._handle.obj := by
    rw [hh1, hh2]
    rcases hg with ⟨g1, g2⟩ | ⟨g1, g2⟩
    · rw [hc1.1 g1, hc2.1 g2]
    · rw [hc1.2 g1, hc2.2 g2]
  exact ⟨isEquivalentTo_of_same_content E w p1 p2 hw1 hw2 hs,
    isEquivalentTo_of_same_content E w p2 p1 hw2 hw1 hs.symm⟩

/-- C4, on `epsg:900913` and `EPSG:3785` created one after the other on the small engine. -/
theorem shortcut_group_equivalent_witness :
    (∃ w2, isEquivalentTo demoOGR mercatorPair 1 (some 2) = Except.ok (true, w2)) ∧
    (∃ w2, isEquivalentTo demoOGR mercatorPair 2 (some 1) = Except.ok (true, w2)) :=
  shortcut_group_equivalent demoOGR startWorld mercatorFirst mercatorFirst mercatorPair
    mercatorPair "epsg:900913".toList "EPSG:3785".toList 1 2
    (Or.inr ⟨by decide, by decide⟩)
    ((create_webMercator demoOGR startWorld _ (by decide)).trans
      (congrArg Except.ok (Prod.ext (by decide) rfl)))
    ((create_webMercator demoOGR mercatorFirst _ (by decide)).trans
      (congrArg Except.ok (Prod.ext (by decide) rfl)))
    ⟨by decide, fun _ => by decide, fun h => absurd h (by decide)⟩ (by decide)
    ⟨by decide, fun _ => by decide, fun h => absurd h (by decide)⟩ (by decide)

/-! ## Memoization: lemmas -/

theorem memoized_ensureInit (E : OGR σ τ D) (w : World σ D) (this : Nat)
    (hw : ∀ q, WF E (w.objs q)) : Memoized E this w (ensureInit E w this) := by
  refine ⟨fun q => ensureInit_WF E w this q (hw q), fun q => ?_, (ensureInit_trace E w this).1,
    ensureInit_initialized E w this, fun h => ?_⟩
  · have hc := ensureInit_core E w this q
    exact ⟨hc.1, hc.2.1, hc.2.2.1⟩
  · rw [ensureInit_of_initialized E w this h]

theorem memoized_ensureInit_other (E : OGR σ τ D) (w w1 : World σ D) (this r : Nat)
    (h : Memoized E this w w1) (hr : this ≠ r) : Memoized E this w (ensureInit E w1 r) := by
  obtain ⟨h1, h2, h3, h4, h5⟩ := h
  have ho := ensureInit_objs_other E w1 r this hr
  refine ⟨fun q => ensureInit_WF E w1 r q (h1 q), fun q => ?_, ?_, ?_, fun hi => ?_⟩
  · have hc := ensureInit_core E w1 r q
    exact ⟨hc.1.trans (h2 q).1, hc.2.1.trans (h2 q).2.1, hc.2.2.1.trans (h2 q).2.2⟩
  · rw [(ensureInit_trace E w1 r).2.1 this hr, h3]
  · rw [ho, h4]
  · rw [ho, h5 hi]

theorem memoized_log_isSame (E : OGR σ τ D) (w w1 : World σ D) (this x y : Nat)
    (h : Memoized E this w w1) : Memoized E this w (w1.log (Call.OSRIsSame x y)) := by
  obtain ⟨h1, h2, h3, h4, h5⟩ := h
  refine ⟨h1, h2, ?_, h4, h5⟩
  rw [← h3]
  simp [World.log, initRuns, List.count_append, List.count_cons]

theorem memoized_trans (E : OGR σ τ D) (w w1 w2 : World σ D) (this : Nat)
    (h : Memoized E this w w1) (h' : Memoized E this w1 w2) : Memoized E this w w2 := by
  obtain ⟨_, h2, h3, h4, h5⟩ := h
  obtain ⟨k1, k2, k3, k4, k5⟩ := h'
  refine ⟨k1, fun q => ?_, ?_, k4, fun hi => ?_⟩
  · exact ⟨(k2 q).1.trans (h2 q).1, (k2 q).2.1.trans (h2 q).2.1, (k2 q).2.2.trans (h2 q).2.2⟩
  · rw [k3, h3, h4]
    simp
  · rw [k5 h4, h5 hi]

theorem fiveChecks_congr (E : OGR σ τ D) (same : Bool) (x y x2 y2 : SpatialReference σ D)
    (hx : x2._handle = x._handle ∧ x2._init_type = x._init_type ∧ x2._init_str = x._init_str)
    (hy : y2._handle = y._handle ∧ y2._init_type = y._init_type ∧ y2._init_str = y._init_str) :
    fiveChecks E same x2 y2 = fiveChecks E same x y := by
  simp only [fiveChecks, hx.1, hx.2.2, hy.1, hy.2.2]

/-- The value an accessor is to return does not change along accessor calls. -/
theorem expected_congr (E : OGR σ τ D) (w w1 : World σ D) (this : Nat) (op : Access)
    (h : Memoized E this w w1) : expected E w1 this op = expected E w this op := by
  have hc := h.2.1
  cases op with
  | isEquivalentTo rhs =>
    cases rhs with
    | none => rfl
    | some r =>
      simp only [expected]
      rw [fiveChecks_congr E _ _ _ _ _ (hc this) (hc r)]
  | _ => simp only [expected, (hc this).1]

/-- One accessor call on a well-formed heap returns the value read off the handle and the
initializer, and memoizes. -/
theorem access_memoized (E : OGR σ τ D) (w : World σ D) (this : Nat) (op : Access)
    (hw : ∀ q, WF E (w.objs q)) :
    ∃ w1, access E w this op = Except.ok (expected E w this op, w1) ∧ Memoized E this w w1 := by
  have hm := memoized_ensureInit E w this hw
  have hd := ensureInit_Derived E w this (hw this)
  have hh : ((ensureInit E w this).objs this)._handle = (w.objs this)._handle :=
    (ensureInit_core E w this this).1
  cases op with
  | isGeographic =>
    exact ⟨_, by simp only [access, expected, isGeographic, hd.1, hh], hm⟩
  | isProjected =>
    exact ⟨_, by simp only [access, expected, isProjected, hd.1, hh], hm⟩
  | getName =>
    exact ⟨_, by simp only [access, expected, getName, hd.2.2.1, hh], hm⟩
  | getEllipsoid =>
    exact ⟨_, by simp only [access, expected, getEllipsoid, hd.2.1, hh], hm⟩
  | getWKT =>
    exact ⟨_, by simp only [access, expected, getWKT, hd.2.2.2.2, hh], hm⟩
  | isMercator =>
    exact ⟨_, by simp only [access, expected, isMercator, hd.2.2.2.1, hh], hm⟩
  | isEquivalentTo rhs =>
    cases rhs with
    | none => exact ⟨_, by simp only [access, expected, isEquivalentTo], hm⟩
    | some r =>
      have hx : ∃ w1, isEquivalentTo E w this (some r)
            = Except.ok (fiveChecks E (decide (this = r)) (w.objs this) (w.objs r), w1) ∧
          Memoized E this w w1 := by
        refine ⟨_, isEquivalentTo_eq E w this r (hw this) (hw r), ?_⟩
        by_cases hc : this = r ∨
            lowercase (w.objs this)._init_str = lowercase (w.objs r)._init_str
        · rw [if_pos hc]
          exact hm
        · rw [if_neg hc]
          have hr : this ≠ r := fun h => hc (Or.inl h)
          have hm2 := memoized_ensureInit_other E w _ this r hm hr
          cases firstFourChecks E (decide (this = r)) (w.objs this) (w.objs r)
          · simp only [Bool.false_eq_true, if_false]
            exact memoized_log_isSame E w _ this _ _ hm2
          · simp only [if_true]
            exact hm2
      obtain ⟨w1, e1, m1⟩ := hx
      exact ⟨w1, by simp only [access, expected, e1], m1⟩

/-- A sequence of at least one accessor call on a well-formed heap returns, call by call, the
values read off the handle and the initializer, and memoizes; so does its first call, and so
do the calls after the first, if any. -/
theorem accessAll_memoized (E : OGR σ τ D) (this : Nat) (op : Access) (ops : List Access) :
    ∀ w : World σ D, (∀ q, WF E (w.objs q)) →
      ∃ w1 w2, access E w this op = Except.ok (expected E w this op, w1) ∧
        accessAll E w this (op :: ops)
          = Except.ok ((op :: ops).map (expected E w this), w2) ∧
        Memoized E this w w1 ∧ Memoized E this w w2 ∧ (w2 = w1 ∨ Memoized E this w1 w2) := by
  induction ops generalizing op with
  | nil =>
    intro w hw
    obtain ⟨w1, h1, hm⟩ := access_memoized E w this op hw
    exact ⟨w1, w1, h1, by simp only [accessAll, h1, List.map], hm, hm, Or.inl rfl⟩
  | cons op2 rest ih =>
    intro w hw
    obtain ⟨w1, h1, hm⟩ := access_memoized E w this op hw
    obtain ⟨_, w2, _, h2, _, hm2, _⟩ := ih op2 w1 hm.1
    refine ⟨w1, w2, h1, ?_, hm, memoized_trans E w w1 w2 this hm hm2, Or.inr hm2⟩
    have he : (op2 :: rest).map (expected E w1 this) = (op2 :: rest).map (expected E w this) :=
      List.map_congr_left (fun o _ => expected_congr E w w1 this o hm)
    rw [accessAll, h1]
    simp only []
    rw [h2, he]
    rfl

/-- C6: on a heap of instances in the state the constructor and `init` leave them in, every
sequence of calls to the accessors `isGeographic`, `isProjected`, `getName`, `getEllipsoid`,
`getWKT`, `isMercator`, `isEquivalentTo` on one instance runs to its end, and `init` is entered
on that instance at most once: once if the sequence is not empty and the instance was not
initialized, else not at all.  It is the first call that leaves the instance initialized, and
the calls after it neither enter `init` on the instance nor change it.  Two calls of the same
accessor (for `isEquivalentTo`, with the same argument) return the same value wherever they
stand in the sequence.  `getInitType` and `getInitString` return the same at the end as at
the start. -/
theorem lazy_derivation_memoized (E : OGR σ τ D) (w : World σ D) (this : Nat)
    (ops : List Access) (hw : ∀ q, WF E (w.objs q)) :
    ∃ vals w2, accessAll E w this ops = Except.ok (vals, w2) ∧
      initRuns this w2.trace = initRuns this w.trace +
        (if ops = [] ∨ (w.objs this)._initialized = true then 0 else 1) ∧
      (∀ op rest, ops = op :: rest →
        ∃ v w1, access E w this op = Except.ok (v, w1) ∧
          (w1.objs this)._initialized = true ∧
          initRuns this w2.trace = initRuns this w1.trace ∧
          w2.objs this = w1.objs this) ∧
      (∀ (i j : Nat) (op : Access),
        ops[i]? = some op → ops[j]? = some op → vals[i]? = vals[j]?) ∧
      getInitType w2 this = getInitType w this ∧
      getInitString w2 this = getInitString w this := by
  cases ops with
  | nil =>
    refine ⟨[], w, rfl, by simp, ?_, ?_, rfl, rfl⟩
    · intro op rest h
      cases h
    · intro i j op h
      simp at h
  | cons op rest =>
    obtain ⟨w1, w2, h1, h2, hm1, hm2, h12⟩ := accessAll_memoized E this op rest w hw
    refine ⟨_, w2, h2, ?_, ?_, ?_, (hm2.2.1 this).2.1, (hm2.2.1 this).2.2⟩
    · rw [hm2.2.2.1]
      cases (w.objs this)._initialized <;> simp
    · intro op' rest' h
      cases h
      refine ⟨_, w1, h1, hm1.2.2.2.1, ?_, ?_⟩
      · rcases h12 with h | h
        · rw [h]
        · rw [h.2.2.1, hm1.2.2.2.1]
          simp
      · rcases h12 with h | h
        · rw [h]
        · exact h.2.2.2.2 hm1.2.2.2.1
    · intro i j o hi hj
      rw [List.getElem?_map, List.getElem?_map, hi, hj]

/-! ## Well-formedness is kept -/

theorem startWorld_WF : ∀ q, WF demoOGR (startWorld.objs q) :=
  fun _ => ⟨rfl, fun _ => rfl, fun h => Bool.noConfusion (h : false = true)⟩

theorem new_WF (E : OGR σ τ D) (w : World σ D) (h : Handle σ) (ty s : CxxString)
    (hw : ∀ q, WF E (w.objs q)) : ∀ q, WF E ((SpatialReference.new w h ty s).2.objs q) := by
  intro q
  by_cases hq : q = w.nextObj
  · subst hq
    simp only [SpatialReference.new, Function.update_same]
    exact ⟨rfl, fun _ => rfl, fun h => Bool.noConfusion (h : false = true)⟩
  · simp only [SpatialReference.new, Function.update_noteq hq]
    exact hw q

/-- The factory `createFromPROJ4` keeps every instance well-formed, the new one included. -/
theorem createFromPROJ4_WF (E : OGR σ τ D) (w : World σ D) (text al : CxxString)
    (hw : ∀ q, WF E (w.objs q)) : ∀ q, WF E ((createFromPROJ4 E w text al).2.objs q) := by
  by_cases hi : (E.importFromProj4 E.newSRS (c_str text)).1 = true
  · simp only [createFromPROJ4, OSRNewSpatialReference, OSRImportFromProj4, hi, if_true]
    exact new_WF E _ _ _ _ hw
  · simp only [createFromPROJ4, OSRNewSpatialReference, OSRImportFromProj4, hi, if_false,
      OSRDestroySpatialReference, World.log]
    exact hw

/-- The factory `createFromWKT` keeps every instance well-formed, the new one included. -/
theorem createFromWKT_WF (E : OGR σ τ D) (w : World σ D) (text al : CxxString)
    (r : Option Nat × World σ D) (h : createFromWKT E w text al = Except.ok r)
    (hw : ∀ q, WF E (w.objs q)) : ∀ q, WF E (r.2.objs q) := by
  by_cases hlen : (c_str text).length < bufSize
  · rw [createFromWKT_eq E w text al hlen] at h
    have h2 := Except.ok.inj h
    subst h2
    by_cases hi : (E.importFromWkt E.newSRS (c_str text)).1 = true
    · simp only [OSRNewSpatialReference, OSRImportFromWkt, hi, if_true]
      exact new_WF E _ _ _ _ hw
    · simp only [OSRNewSpatialReference, OSRImportFromWkt, hi, if_false,
        OSRDestroySpatialReference, World.log]
      exact hw
  · rw [createFromWKT_overrun E w text al (by omega)] at h
    cases h

/-- The dispatcher `create` keeps every instance well-formed, the new one included. -/
theorem create_WF (E : OGR σ τ D) (w : World σ D) (init : CxxString)
    (r : Option Nat × World σ D) (h : create E w init = Except.ok r)
    (hw : ∀ q, WF E (w.objs q)) : ∀ q, WF E (r.2.objs q) := by
  simp only [create] at h
  split at h
  · rw [← Except.ok.inj h]
    exact createFromPROJ4_WF E w _ _ hw
  split at h
  · rw [← Except.ok.inj h]
    exact createFromPROJ4_WF E w _ _ hw
  split at h
  · rw [← Except.ok.inj h]
    exact createFromPROJ4_WF E w _ _ hw
  split at h
  · rw [← Except.ok.inj h]
    exact createFromPROJ4_WF E w _ _ hw
  split at h
  · exact createFromWKT_WF E w init init r h hw
  · rw [← Except.ok.inj h]
    exact hw

theorem twoInstances_heap_WF : ∀ q, WF demoOGR (twoInstances.objs q) :=
  createFromPROJ4_WF demoOGR _ _ _ (createFromPROJ4_WF demoOGR _ _ _ startWorld_WF)

/-- C6, on the instance of `epsg:4326`: five calls with `getWKT` and `isEquivalentTo` made
twice. -/
theorem lazy_derivation_memoized_witness :
    ∃ vals w2, accessAll demoOGR twoInstances 1
        [Access.getWKT, Access.isEquivalentTo (some 2), Access.isGeographic, Access.getWKT,
         Access.isEquivalentTo (some 2)] = Except.ok (vals, w2) ∧
      initRuns 1 w2.trace = initRuns 1 twoInstances.trace +
        (if [Access.getWKT, Access.isEquivalentTo (some 2), Access.isGeographic, Access.getWKT,
              Access.isEquivalentTo (some 2)] = [] ∨
            (twoInstances.objs 1)._initialized = true then 0 else 1) ∧
      (∀ op rest, [Access.getWKT, Access.isEquivalentTo (some 2), Access.isGeographic,
          Access.getWKT, Access.isEquivalentTo (some 2)] = op :: rest →
        ∃ v w1, access demoOGR twoInstances 1 op = Except.ok (v, w1) ∧
          (w1.objs 1)._initialized = true ∧
          initRuns 1 w2.trace = initRuns 1 w1.trace ∧
          w2.objs 1 = w1.objs 1) ∧
      (∀ (i j : Nat) (op : Access),
        [Access.getWKT, Access.isEquivalentTo (some 2), Access.isGeographic, Access.getWKT,
          Access.isEquivalentTo (some 2)][i]? = some op →
        [Access.getWKT, Access.isEquivalentTo (some 2), Access.isGeographic, Access.getWKT,
          Access.isEquivalentTo (some 2)][j]? = some op → vals[i]? = vals[j]?) ∧
      getInitType w2 1 = getInitType twoInstances 1 ∧
      getInitString w2 1 = getInitString twoInstances 1 :=
  lazy_derivation_memoized demoOGR twoInstances 1 _ twoInstances_heap_WF

/-! ## Coordinate transformation -/

/-- When the engine constructs no transformation, `transform` fails, leaves the outputs, and
the state is that of the two `getName` calls of the warning. -/
theorem transform_not_possible (E : OGR σ τ D) (w : World σ D) (this out_srs : Nat)
    (x y out_x out_y : D)
    (hn : E.newTransform (w.objs this)._handle.obj (w.objs out_srs)._handle.obj = none) :
    transform E w this x y out_srs out_x out_y =
      ((false, out_x, out_y),
       ensureInit E (ensureInit E
         (w.log (Call.OCTNewCoordinateTransformation (w.objs this)._handle.id
           (w.objs out_srs)._handle.id none)) this) out_srs) := by
  simp only [transform, OCTNewCoordinateTransformation, hn, getName]

/-- When the engine constructs a transformation and transforms the point, `transform` succeeds
with the engine's x and y, and destroys the transformation. -/
theorem transform_done (E : OGR σ τ D) (w : World σ D) (this out_srs : Nat)
    (x y out_x out_y : D) (t : τ)
    (hn : E.newTransform (w.objs this)._handle.obj (w.objs out_srs)._handle.obj = some t)
    (ht : (E.octTransform t (x, y, E.zero)).1 = true) :
    transform E w this x y out_srs out_x out_y =
      ((true, (E.octTransform t (x, y, E.zero)).2.1, (E.octTransform t (x, y, E.zero)).2.2.1),
       { w with
         liveXforms := (w.nextXform :: w.liveXforms).erase w.nextXform
         nextXform := w.nextXform + 1
         trace := w.trace ++
           [Call.OCTNewCoordinateTransformation (w.objs this)._handle.id
             (w.objs out_srs)._handle.id (some w.nextXform)] ++
           [Call.OCTTransform w.nextXform] ++
           [Call.OCTDestroyCoordinateTransformation w.nextXform] }) := by
  simp only [transform, OCTNewCoordinateTransformation, hn, OCTTransform, ht, if_true,
    OCTDestroyCoordinateTransformation, World.log]

/-- When the engine constructs a transformation and fails on the point, `transform` fails,
leaves the outputs, and destroys the transformation after the two `getName` calls of the
warning. -/
theorem transform_failed (E : OGR σ τ D) (w : World σ D) (this out_srs : Nat)
    (x y out_x out_y : D) (t : τ)
    (hn : E.newTransform (w.objs this)._handle.obj (w.objs out_srs)._handle.obj = some t)
    (ht : (E.octTransform t (x, y, E.zero)).1 = false) :
    transform E w this x y out_srs out_x out_y =
      ((false, out_x, out_y),
       OCTDestroyCoordinateTransformation
         (ensureInit E (ensureInit E
           { w with
             liveXforms := w.nextXform :: w.liveXforms
             nextXform := w.nextXform + 1
             trace := w.trace ++
               [Call.OCTNewCoordinateTransformation (w.objs this)._handle.id
                 (w.objs out_srs)._handle.id (some w.nextXform)] ++
               [Call.OCTTransform w.nextXform] } this) out_srs)
         ({ id := w.nextXform, obj := t } : XformHandle τ)) := by
  simp only [transform, OCTNewCoordinateTransformation, hn, OCTTransform, ht,
    Bool.false_eq_true, if_false, getName, World.log]

/-- C8: `transform` returns false exactly when the engine constructs no transformation from
this handle to the target's, or constructs one and its transform step on `(x, y, 0)` fails; on
failure the outputs are left as they were, on success they are the engine's x and y.  On every
path the live coordinate transformations are the same after the call as before, and the
transformations constructed during the call, at most one, are exactly those destroyed during
the call, each once. -/
theorem transform_contract (E : OGR σ τ D) (w : World σ D) (this out_srs : Nat)
    (x y out_x out_y : D) :
    ((transform E w this x y out_srs out_x out_y).1.1 = false ↔
      (E.newTransform (w.objs this)._handle.obj (w.objs out_srs)._handle.obj = none ∨
       ∃ t, E.newTransform (w.objs this)._handle.obj (w.objs out_srs)._handle.obj = some t ∧
         (E.octTransform t (x, y, E.zero)).1 = false)) ∧
    ((transform E w this x y out_srs out_x out_y).1.1 = false →
      (transform E w this x y out_srs out_x out_y).1.2 = (out_x, out_y)) ∧
    (∀ t, E.newTransform (w.objs this)._handle.obj (w.objs out_srs)._handle.obj = some t →
      (E.octTransform t (x, y, E.zero)).1 = true →
      (transform E w this x y out_srs out_x out_y).1
        = (true, (E.octTransform t (x, y, E.zero)).2.1,
            (E.octTransform t (x, y, E.zero)).2.2.1)) ∧
    (transform E w this x y out_srs out_x out_y).2.liveXforms = w.liveXforms ∧
    ∃ l : List Nat, l.length ≤ 1 ∧
      xformsCreated (transform E w this x y out_srs out_x out_y).2.trace
        = xformsCreated w.trace ++ l ∧
      xformsDestroyed (transform E w this x y out_srs out_x out_y).2.trace
        = xformsDestroyed w.trace ++ l := by
  cases hn : E.newTransform (w.objs this)._handle.obj (w.objs out_srs)._handle.obj with
  | none =>
    rw [transform_not_possible E w this out_srs x y out_x out_y hn]
    refine ⟨(by simp), (fun _ => rfl), (fun t h => by cases h), ?_, [], (by simp), ?_, ?_⟩
    · rw [(ensureInit_frame E _ out_srs).2.1, (ensureInit_frame E _ this).2.1]
      rfl
    · rw [(ensureInit_trace E _ out_srs).2.2.2.1, (ensureInit_trace E _ this).2.2.2.1]
      simp [World.log, xformsCreated_append, xformsCreated]
    · rw [(ensureInit_trace E _ out_srs).2.2.2.2, (ensureInit_trace E _ this).2.2.2.2]
      simp [World.log, xformsDestroyed_append, xformsDestroyed]
  | some t =>
    cases ht : (E.octTransform t (x, y, E.zero)).1 with
    | true =>
      rw [transform_done E w this out_srs x y out_x out_y t hn ht]
      refine ⟨(by simp [ht]), (fun h => by cases h), (fun t2 h2 _ => ?_), ?_,
        [w.nextXform], (by simp), ?_, ?_⟩
      · cases h2
        rfl
      · simp
      · simp [xformsCreated_append, xformsCreated]
      · simp [xformsDestroyed_append, xformsDestroyed]
    | false =>
      rw [transform_failed E w this out_srs x y out_x out_y t hn ht]
      refine ⟨(by simp [ht]), (fun _ => rfl), (fun t2 h2 h3 => ?_), ?_,
        [w.nextXform], (by simp), ?_, ?_⟩
      · cases h2
        rw [ht] at h3
        cases h3
      · simp only [OCTDestroyCoordinateTransformation]
        rw [(ensureInit_frame E _ out_srs).2.1, (ensureInit_frame E _ this).2.1]
        simp
      · simp only [OCTDestroyCoordinateTransformation, xformsCreated_append]
        rw [(ensureInit_trace E _ out_srs).2.2.2.1, (ensureInit_trace E _ this).2.2.2.1]
        simp [xformsCreated_append, xformsCreated]
      · simp only [OCTDestroyCoordinateTransformation, xformsDestroyed_append]
        rw [(ensureInit_trace E _ out_srs).2.2.2.2, (ensureInit_trace E _ this).2.2.2.2]
        simp [xformsDestroyed_append, xformsDestroyed]

/-- C8, on the instances of `epsg:4326` and `EPSG:900913` and the point `(5, 7)`: the small
engine constructs a transformation and transforms the point, so the call succeeds. -/
theorem transform_contract_witness :
    (transform demoOGR twoInstances 1 5 7 2 0 0).1
      = (true, (demoOGR.octTransform () (5, 7, demoOGR.zero)).2.1,
          (demoOGR.octTransform () (5, 7, demoOGR.zero)).2.2.1) ∧
    (transform demoOGR twoInstances 1 5 7 2 0 0).2.liveXforms = twoInstances.liveXforms :=
  ⟨(transform_contract demoOGR twoInstances 1 2 5 7 0 0).2.2.1 () (by decide) (by decide),
   (transform_contract demoOGR twoInstances 1 2 5 7 0 0).2.2.2.1⟩

end osgEarth
